import Mathlib

/-!
# Verification of the Compliance Filing Pipeline core

A shallow embedding, in Lean 4, of the deterministic core of the
Agentic BNY AI Compliance repository:

* `backend/tools/field_mapper.py` — case normalization, report-type
  classification, SAR/CTR field mapping;
* `backend/tools/pdf_tools.py` — the paginated form-fill loop and its
  page-routing helper;
* `backend/orchestration/crew.py` and `backend/api/routes.py` — the
  branching and job-state logic of the pipeline orchestrator.

Python values (the JSON-like case payloads) are modelled by the inductive
type `JVal`; Python `dict`s are association lists whose first binding for
a key is the visible one and whose insert operation replaces in place
(mirroring `dict` insertion-order semantics).  Code that can raise an
exception is modelled in the `Option` monad, `none` standing for a raised
exception.  Python builtin boundaries that the claims do not depend on
(the exact decimal representation of floats, `repr` escaping inside
strings, scientific-notation parsing in `float()`) are modelled by total
functions with documented, simplified behaviour.
-/

/-- JSON-like Python value: `None`, `bool`, numbers (modelled as `ℚ`,
conflating Python `int` and `float`), strings, lists and dicts.  Dict keys
are strings, as in JSON payloads. -/
inductive JVal where
  | null : JVal
  | bool : Bool → JVal
  | num : ℚ → JVal
  | str : String → JVal
  | arr : List JVal → JVal
  | obj : List (String × JVal) → JVal

mutual

/-- Boolean structural equality on `JVal` (basis for decidable equality;
the derive handler does not support this nested inductive). -/
def jvalBEq : JVal → JVal → Bool
  | .null, .null => true
  | .bool x, .bool y => x == y
  | .num x, .num y => x == y
  | .str x, .str y => x == y
  | .arr xs, .arr ys => jvalBEqList xs ys
  | .obj a, .obj b => jvalBEqObj a b
  | _, _ => false

def jvalBEqList : List JVal → List JVal → Bool
  | [], [] => true
  | x :: xs, y :: ys => jvalBEq x y && jvalBEqList xs ys
  | _, _ => false

def jvalBEqObj : List (String × JVal) → List (String × JVal) → Bool
  | [], [] => true
  | e :: a, f :: b => e.1 == f.1 && jvalBEq e.2 f.2 && jvalBEqObj a b
  | _, _ => false

end

mutual

theorem jvalBEq_refl : ∀ a : JVal, jvalBEq a a = true
  | .null => rfl
  | .bool x => by simp [jvalBEq]
  | .num x => by simp [jvalBEq]
  | .str x => by simp [jvalBEq]
  | .arr xs => jvalBEqList_refl xs
  | .obj a => jvalBEqObj_refl a

theorem jvalBEqList_refl : ∀ xs : List JVal, jvalBEqList xs xs = true
  | [] => rfl
  | x :: xs => by simp [jvalBEqList, jvalBEq_refl x, jvalBEqList_refl xs]

theorem jvalBEqObj_refl : ∀ a : List (String × JVal), jvalBEqObj a a = true
  | [] => rfl
  | e :: a => by simp [jvalBEqObj, jvalBEq_refl e.2, jvalBEqObj_refl a]

end

mutual

theorem jvalBEq_eq : ∀ a b : JVal, jvalBEq a b = true → a = b
  | .null, .null, _ => rfl
  | .bool x, .bool y, h => by simpa [jvalBEq] using h
  | .num x, .num y, h => by simpa [jvalBEq] using h
  | .str x, .str y, h => by simpa [jvalBEq] using h
  | .arr xs, .arr ys, h => congrArg JVal.arr (jvalBEqList_eq xs ys h)
  | .obj a, .obj b, h => congrArg JVal.obj (jvalBEqObj_eq a b h)
  | .null, .bool _, h => Bool.noConfusion h
  | .null, .num _, h => Bool.noConfusion h
  | .null, .str _, h => Bool.noConfusion h
  | .null, .arr _, h => Bool.noConfusion h
  | .null, .obj _, h => Bool.noConfusion h
  | .bool _, .null, h => Bool.noConfusion h
  | .bool _, .num _, h => Bool.noConfusion h
  | .bool _, .str _, h => Bool.noConfusion h
  | .bool _, .arr _, h => Bool.noConfusion h
  | .bool _, .obj _, h => Bool.noConfusion h
  | .num _, .null, h => Bool.noConfusion h
  | .num _, .bool _, h => Bool.noConfusion h
  | .num _, .str _, h => Bool.noConfusion h
  | .num _, .arr _, h => Bool.noConfusion h
  | .num _, .obj _, h => Bool.noConfusion h
  | .str _, .null, h => Bool.noConfusion h
  | .str _, .bool _, h => Bool.noConfusion h
  | .str _, .num _, h => Bool.noConfusion h
  | .str _, .arr _, h => Bool.noConfusion h
  | .str _, .obj _, h => Bool.noConfusion h
  | .arr _, .null, h => Bool.noConfusion h
  | .arr _, .bool _, h => Bool.noConfusion h
  | .arr _, .num _, h => Bool.noConfusion h
  | .arr _, .str _, h => Bool.noConfusion h
  | .arr _, .obj _, h => Bool.noConfusion h
  | .obj _, .null, h => Bool.noConfusion h
  | .obj _, .bool _, h => Bool.noConfusion h
  | .obj _, .num _, h => Bool.noConfusion h
  | .obj _, .str _, h => Bool.noConfusion h
  | .obj _, .arr _, h => Bool.noConfusion h

theorem jvalBEqList_eq : ∀ xs ys : List JVal, jvalBEqList xs ys = true → xs = ys
  | [], [], _ => rfl
  | x :: xs, y :: ys, h => by
    have h' := h
    simp only [jvalBEqList, Bool.and_eq_true] at h'
    rw [jvalBEq_eq x y h'.1, jvalBEqList_eq xs ys h'.2]
  | [], _ :: _, h => Bool.noConfusion h
  | _ :: _, [], h => Bool.noConfusion h

theorem jvalBEqObj_eq : ∀ a b : List (String × JVal), jvalBEqObj a b = true → a = b
  | [], [], _ => rfl
  | e :: a, f :: b, h => by
    have h' := h
    simp only [jvalBEqObj, Bool.and_eq_true, beq_iff_eq] at h'
    have he : e = f := Prod.ext h'.1.1 (jvalBEq_eq e.2 f.2 h'.1.2)
    rw [he, jvalBEqObj_eq a b h'.2]
  | [], _ :: _, h => Bool.noConfusion h
  | _ :: _, [], h => Bool.noConfusion h

end

instance : DecidableEq JVal := fun a b =>
  if h : jvalBEq a b = true then isTrue (jvalBEq_eq a b h)
  else isFalse (fun he => h (he ▸ jvalBEq_refl a))

/-- Is the value a Python `dict`? (`isinstance(v, dict)`) -/
def jIsObj : JVal → Bool
  | .obj _ => true
  | _ => false

/-- Is the value a Python `list`? (`isinstance(v, list)`) -/
def jIsArr : JVal → Bool
  | .arr _ => true
  | _ => false

/-- Is the value a Python `str`? (`isinstance(v, str)`) -/
def jIsStr : JVal → Bool
  | .str _ => true
  | _ => false

/-- Python truthiness of a value (`bool(v)`). -/
def pyTruthy : JVal → Bool
  | .null => false
  | .bool b => b
  | .num q => decide (q ≠ 0)
  | .str s => decide (s ≠ "")
  | .arr xs => !xs.isEmpty
  | .obj kvs => !kvs.isEmpty

/-- Python `v or d`: the value if truthy, else the default. -/
def pyOr (v d : JVal) : JVal := if pyTruthy v then v else d

/-- First binding for a key in an association list, with default
(`dict.get(k, d)` for a known dict). -/
def lookupD {κ α : Type} [BEq κ] (m : List (κ × α)) (k : κ) (d : α) : α :=
  match m.find? (fun e => e.1 == k) with
  | some e => e.2
  | none => d

/-- `v.get(k, d)` on a value statically known to be a dict; on a non-dict
receiver it returns the default (use `pyDictGet` where the receiver may
legitimately be a non-dict and the attribute access would raise). -/
def objGetD (v : JVal) (k : String) (d : JVal) : JVal :=
  match v with
  | .obj kvs => lookupD kvs k d
  | _ => d

/-- `v.get(k, d)` where `v` may not be a dict: a non-dict receiver raises
`AttributeError`, modelled as `none`. -/
def pyDictGet (v : JVal) (k : String) (d : JVal) : Option JVal :=
  match v with
  | .obj kvs => some (lookupD kvs k d)
  | _ => none

/-- Python's dict assignment `m[k] = v`: replace the existing binding in
place if present, else append at the end (insertion-order semantics). -/
def dSet {κ α : Type} [BEq κ] (m : List (κ × α)) (k : κ) (v : α) : List (κ × α) :=
  if m.any (fun e => e.1 == k) then
    m.map (fun e => if e.1 == k then (k, v) else e)
  else
    m ++ [(k, v)]

/-- Python's `m.update(sub)`: set every binding of `sub` in order. -/
def dUpdate {κ α : Type} [BEq κ] (m sub : List (κ × α)) : List (κ × α) :=
  sub.foldl (fun acc e => dSet acc e.1 e.2) m

/-- Remove all bindings whose key is in `ks`. -/
def dErase {κ α : Type} [BEq κ] (ks : List κ) (m : List (κ × α)) : List (κ × α) :=
  m.filter (fun e => !(ks.contains e.1))

/-! ## Python string primitives -/

/-- Characters treated as whitespace by Python's `str.strip()`. -/
def pyWSChars : List Char := [' ', '\t', '\n', '\r', Char.ofNat 11, Char.ofNat 12]

def isPyWS (c : Char) : Bool := pyWSChars.contains c

/-- Strip characters satisfying `p` from both ends of a list. -/
def trimBy (p : Char → Bool) (l : List Char) : List Char :=
  ((l.dropWhile p).reverse.dropWhile p).reverse

/-- Python `s.strip()` (default whitespace). -/
def pstrip (s : String) : String := ⟨trimBy isPyWS s.data⟩

/-- Python `s.strip(chars)`. -/
def pstripChars (cs : List Char) (s : String) : String :=
  ⟨trimBy (fun c => cs.contains c) s.data⟩

/-- Python `s.lower()` (ASCII-adequate). -/
def plower (s : String) : String := ⟨s.data.map Char.toLower⟩

/-- Python `s.upper()` (ASCII-adequate). -/
def pupper (s : String) : String := ⟨s.data.map Char.toUpper⟩

/-- Python `needle in hay` on lists: contiguous-sublist test. -/
def infixAux (needle : List Char) : List Char → Bool
  | [] => needle.isEmpty
  | c :: rest => needle.isPrefixOf (c :: rest) || infixAux needle rest

/-- Python substring test `needle in hay`. -/
def containsSub (hay needle : String) : Bool := infixAux needle.data hay.data

/-- Python `s.startswith(p)` with the candidate first: `pstartsWith p s` is
`s.startswith(p)`. -/
def pstartsWith (p s : String) : Bool := p.data.isPrefixOf s.data

/-- Python `re.sub(r"\D", "", s)`: keep only ASCII digits. -/
def digitsOf (s : String) : String := ⟨s.data.filter Char.isDigit⟩

/-- Python slice `s[:n]` on a string. -/
def pyTake (n : ℕ) (s : String) : String := ⟨s.data.take n⟩

/-- Python slice `s[a:b]` on a string. -/
def pySub (a b : ℕ) (s : String) : String := ⟨(s.data.take b).drop a⟩

/-- Python `s.split()` (split on whitespace runs, dropping empties). -/
def pyWords (s : String) : List String :=
  ((s.data.splitOnP isPyWS).map (fun l => (⟨l⟩ : String))).filter (fun w => w != "")

/-- Python `s.split(sep, 1)`: split once on the first occurrence of the
separator; returns the head and, when the separator occurs, the tail. -/
def pySplitOnce (s : String) (sep : String) : String × Option String :=
  match s.splitOn sep with
  | [] => (s, none)
  | [x] => (x, none)
  | x :: rest => (x, some (String.intercalate sep rest))

/-! ## Decimal rendering (Python builtin boundary)

`natStrAux` renders a natural number in decimal with a structural fuel
argument so that the definition evaluates inside `decide`.  The fuel
`n + 1` always suffices (the decimal length of `n` is at most `n + 1`).
-/

def natStrAux : ℕ → ℕ → List Char
  | 0, _ => []
  | fuel + 1, n =>
    if n < 10 then [Char.ofNat (48 + n)]
    else natStrAux fuel (n / 10) ++ [Char.ofNat (48 + n % 10)]

/-- Decimal representation of a natural number. -/
def natStr (n : ℕ) : String := ⟨natStrAux (n + 1) n⟩

/-- Decimal representation of an integer (Python `str(int)`). -/
def intStr (i : ℤ) : String :=
  if i < 0 then "-" ++ natStr (-i).toNat else natStr i.toNat

/-- Python `str()` of a number.  Integers render exactly; non-integer
rationals render as `num/den`, an approximation of float `repr` that no
claim depends on (the digits of numeric reprs are never inspected). -/
def numRepr (q : ℚ) : String :=
  if q.den = 1 then intStr q.num else intStr q.num ++ "/" ++ natStr q.den

/-- Python `int(x)` on a float: truncation toward zero. -/
def pyTrunc (q : ℚ) : ℤ := if q < 0 then -((-q).floor) else q.floor

/-- Left-pad a digit list with zeros to width `w`. -/
def zeroPad (w : ℕ) (ds : List Char) : List Char :=
  List.replicate (w - ds.length) '0' ++ ds

/-- Python `f"{i:011d}"`: zero-padded to width 11, the sign counting
toward the width. -/
def pad11 (i : ℤ) : String :=
  if i < 0 then ⟨'-' :: zeroPad 10 (natStrAux ((-i).toNat + 1) (-i).toNat)⟩
  else ⟨zeroPad 11 (natStrAux (i.toNat + 1) i.toNat)⟩

/-- Insert a comma after every third digit of a reversed digit list. -/
def group3Rev : ℕ → List Char → List Char
  | _, [] => []
  | 0, l => l
  | fuel + 1, l =>
    if l.length ≤ 3 then l else l.take 3 ++ ',' :: group3Rev fuel (l.drop 3)

/-- Thousands grouping of a digit list. -/
def groupDigits (ds : List Char) : List Char :=
  (group3Rev ds.length ds.reverse).reverse

/-- Python `f"{x:,.2f}"`: comma-grouped, two decimals.  Rounding is
half-up on the rational value, an approximation of binary-float rounding
that no claim depends on. -/
def fmtMoney (q : ℚ) : String :=
  let neg := q < 0
  let a : ℚ := if neg then -q else q
  let cents : ℕ := (a * 100 + 1/2).floor.toNat
  let ip := cents / 100
  let fp := cents % 100
  (if neg then "-" else "") ++ (⟨groupDigits (natStrAux (ip + 1) ip)⟩ : String)
    ++ "." ++ (⟨zeroPad 2 (natStrAux (fp + 1) fp)⟩ : String)

/-! ## `str()` / `repr()` of values -/

/-- The single-quote character as a string (Python repr quoting). -/
def pyQuote : String := ⟨[Char.ofNat 39]⟩

def digitsVal (ds : List Char) : ℕ :=
  ds.foldl (fun a c => a * 10 + (c.toNat - 48)) 0

mutual

/-- Python `repr(v)`.  String escaping inside reprs is simplified to bare
single quotes; no claim inspects repr contents of containers. -/
def pyRepr : JVal → String
  | .null => "None"
  | .bool true => "True"
  | .bool false => "False"
  | .num q => numRepr q
  | .str s => pyQuote ++ s ++ pyQuote
  | .arr xs => "[" ++ String.intercalate ", " (pyReprList xs) ++ "]"
  | .obj kvs => "\x7b" ++ String.intercalate ", " (pyReprObj kvs) ++ "\x7d"

def pyReprList : List JVal → List String
  | [] => []
  | v :: vs => pyRepr v :: pyReprList vs

def pyReprObj : List (String × JVal) → List String
  | [] => []
  | e :: kvs => (pyQuote ++ e.1 ++ pyQuote ++ ": " ++ pyRepr e.2) :: pyReprObj kvs

end

/-- Python `str(v)`. -/
def pyStr : JVal → String
  | .str s => s
  | .null => pyRepr .null
  | .bool b => pyRepr (.bool b)
  | .num q => pyRepr (.num q)
  | .arr xs => pyRepr (.arr xs)
  | .obj kvs => pyRepr (.obj kvs)

/-- Python `float(v)` for a string argument: optional surrounding
whitespace, optional sign, digits with at most one decimal point.
Scientific notation, `inf` and `nan` are modelled as parse failures. -/
def pyParseFloat (s : String) : Option ℚ :=
  let l := (pstrip s).data
  let sg : ℚ × List Char :=
    match l with
    | '-' :: r => (-1, r)
    | '+' :: r => (1, r)
    | r => (1, r)
  let ip := sg.2.takeWhile Char.isDigit
  let rest := sg.2.dropWhile Char.isDigit
  match rest with
  | [] => if ip.isEmpty then none else some (sg.1 * digitsVal ip)
  | '.' :: fr =>
    if fr.all Char.isDigit && (!ip.isEmpty || !fr.isEmpty) then
      some (sg.1 * ((digitsVal ip : ℚ) + (digitsVal fr : ℚ) / (10 : ℚ) ^ fr.length))
    else none
  | _ => none

/-- Python `float(v)`: numbers and bools convert, strings parse, anything
else raises `TypeError` (`none`). -/
def pyFloat : JVal → Option ℚ
  | .num q => some q
  | .bool b => some (if b then 1 else 0)
  | .str s => pyParseFloat s
  | _ => none

/-- Python `for x in v`: lists yield elements, strings yield characters,
dicts yield their keys; other values raise `TypeError`. -/
def pyIterate : JVal → Option (List JVal)
  | .arr xs => some xs
  | .str s => some (s.data.map (fun c => .str ⟨[c]⟩))
  | .obj kvs => some (kvs.map (fun e => JVal.str e.1))
  | _ => none

/-- Coerce to `str` for a string method call (`.strip()`, `.split()`,
`re.sub` …): a non-string receiver raises. -/
def asStr : JVal → Option String
  | .str s => some s
  | _ => none

/-- Python slice `v[:n]` on a value: strings and lists slice, anything
else raises `TypeError`. -/
def pySliceTo (n : ℕ) : JVal → Option JVal
  | .str s => some (.str (pyTake n s))
  | .arr xs => some (.arr (xs.take n))
  | _ => none

/-- Python `sep.join(v)`: a list joins if every element is a string,
a string joins its characters, a dict joins its keys; other values (or a
list with a non-string element) raise `TypeError`. -/
def pyJoin (sep : String) : JVal → Option String
  | .arr xs => do
    let ss ← xs.mapM asStr
    some (String.intercalate sep ss)
  | .str s => some (String.intercalate sep (s.data.map (fun c => (⟨[c]⟩ : String))))
  | .obj kvs => some (String.intercalate sep (kvs.map (·.1)))
  | _ => none

/-! ## Case Normalizer (`field_mapper.py` lines 9–51) -/

def NULL_STRINGS : List String := ["null", "none", "nil", "na", "n/a"]

def TRUE_STRINGS : List String := ["true", "yes", "y", "1", "t"]

def FALSE_STRINGS : List String := ["false", "no", "n", "0", "f"]

/-- `_normalize_scalar` (`field_mapper.py` 14–25): trim string scalars and
fold null-like / truth-like / false-like tokens (Python membership `in`
is `∈` on the token lists; `cleaned`/`lowered` are inlined). -/
def _normalize_scalar : JVal → JVal
  | .str s =>
    if plower (pstrip s) ∈ NULL_STRINGS then .null
    else if plower (pstrip s) ∈ TRUE_STRINGS then .bool true
    else if plower (pstrip s) ∈ FALSE_STRINGS then .bool false
    else .str (pstrip s)
  | v => v

mutual

/-- `_normalize_obj` (`field_mapper.py` 28–33): recursive normalization of
dicts and lists, scalar normalization at the leaves. -/
def _normalize_obj : JVal → JVal
  | .obj kvs => .obj (normObjList kvs)
  | .arr xs => .arr (normArrList xs)
  | .null => _normalize_scalar .null
  | .bool b => _normalize_scalar (.bool b)
  | .num q => _normalize_scalar (.num q)
  | .str s => _normalize_scalar (.str s)

def normArrList : List JVal → List JVal
  | [] => []
  | v :: vs => _normalize_obj v :: normArrList vs

def normObjList : List (String × JVal) → List (String × JVal)
  | [] => []
  | e :: kvs => (e.1, _normalize_obj e.2) :: normObjList kvs

end

/-- `normalize_case_data` (`field_mapper.py` 36–51): normalize, then
return the dict itself, or the first dict element of the (normalized)
list, or `{}`. -/
def normalize_case_data (case_data : JVal) : JVal :=
  match _normalize_obj case_data with
  | .obj kvs => .obj kvs
  | .arr xs =>
    match xs.find? jIsObj with
    | some d => d
    | none => .obj []
  | _ => .obj []

/-! ### Normalizer lemmas -/

theorem norm_obj_null : _normalize_obj .null = .null := rfl

theorem norm_obj_bool (b : Bool) : _normalize_obj (.bool b) = .bool b := rfl

theorem norm_obj_num (q : ℚ) : _normalize_obj (.num q) = .num q := rfl

theorem norm_obj_str (s : String) :
    _normalize_obj (.str s) = _normalize_scalar (.str s) := rfl

theorem norm_obj_arr (xs : List JVal) :
    _normalize_obj (.arr xs) = .arr (normArrList xs) := rfl

theorem norm_obj_obj (kvs : List (String × JVal)) :
    _normalize_obj (.obj kvs) = .obj (normObjList kvs) := rfl

/-- Unfolding equation for `_normalize_scalar` on strings. -/
theorem norm_scalar_str_eq (s : String) :
    _normalize_scalar (.str s) =
      (if plower (pstrip s) ∈ NULL_STRINGS then JVal.null
       else if plower (pstrip s) ∈ TRUE_STRINGS then JVal.bool true
       else if plower (pstrip s) ∈ FALSE_STRINGS then JVal.bool false
       else JVal.str (pstrip s)) := rfl

/-- Shape of scalar normalization on strings, with the branch conditions
in the pass-through case. -/
theorem norm_scalar_str_cases (s : String) :
    (_normalize_scalar (.str s) = .null ∧ plower (pstrip s) ∈ NULL_STRINGS) ∨
    (_normalize_scalar (.str s) = .bool true ∧ plower (pstrip s) ∈ TRUE_STRINGS) ∨
    (_normalize_scalar (.str s) = .bool false ∧ plower (pstrip s) ∈ FALSE_STRINGS) ∨
    (_normalize_scalar (.str s) = .str (pstrip s) ∧
      plower (pstrip s) ∉ NULL_STRINGS ∧ plower (pstrip s) ∉ TRUE_STRINGS ∧
      plower (pstrip s) ∉ FALSE_STRINGS) := by
  rw [norm_scalar_str_eq]
  split_ifs with h1 h2 h3
  · exact Or.inl ⟨rfl, h1⟩
  · exact Or.inr (Or.inl ⟨rfl, h2⟩)
  · exact Or.inr (Or.inr (Or.inl ⟨rfl, h3⟩))
  · exact Or.inr (Or.inr (Or.inr ⟨rfl, h1, h2, h3⟩))

theorem dropWhile_cons_of_neg {p : Char → Bool} {c : Char} {l : List Char}
    (h : p c = false) : (c :: l).dropWhile p = c :: l := by
  simp [List.dropWhile, h]

theorem dropWhile_append_singleton {p : Char → Bool} {c : Char} (l : List Char)
    (h : p c = false) : (l ++ [c]).dropWhile p = l.dropWhile p ++ [c] := by
  induction l with
  | nil => simp [List.dropWhile, h]
  | cons a t ih =>
    by_cases ha : p a = true
    · simp [List.dropWhile, ha, ih]
    · simp only [Bool.not_eq_true] at ha
      simp [List.dropWhile, ha]

theorem dropWhile_head_false {p : Char → Bool} (l : List Char) :
    l.dropWhile p = [] ∨ ∃ c t, l.dropWhile p = c :: t ∧ p c = false := by
  induction l with
  | nil => exact Or.inl rfl
  | cons a t ih =>
    by_cases ha : p a = true
    · simpa [List.dropWhile, ha] using ih
    · simp only [Bool.not_eq_true] at ha
      exact Or.inr ⟨a, t, by simp [List.dropWhile, ha], ha⟩

theorem trimBy_idem (p : Char → Bool) (l : List Char) :
    trimBy p (trimBy p l) = trimBy p l := by
  rcases dropWhile_head_false (p := p) l with h | ⟨c, t, h, hc⟩
  · have h1 : trimBy p l = [] := by simp [trimBy, h, List.dropWhile]
    rw [h1]
    rfl
  · have hrev : (l.dropWhile p).reverse = t.reverse ++ [c] := by simp [h]
    have hv : (l.dropWhile p).reverse.dropWhile p = t.reverse.dropWhile p ++ [c] := by
      rw [hrev, dropWhile_append_singleton _ hc]
    have htrim : trimBy p l = c :: (t.reverse.dropWhile p).reverse := by
      simp [trimBy, hv]
    rcases dropWhile_head_false (p := p) (l.dropWhile p).reverse with h2 | ⟨c2, t2, h2, hc2⟩
    · rw [hv] at h2; simp at h2
    · have hd : (trimBy p l).dropWhile p = trimBy p l := by
        rw [htrim, dropWhile_cons_of_neg hc]
      have hrd : (trimBy p l).reverse.dropWhile p = (trimBy p l).reverse := by
        have hx : (trimBy p l).reverse = (l.dropWhile p).reverse.dropWhile p := by
          simp [trimBy]
        rw [hx, h2, dropWhile_cons_of_neg hc2, ← h2]
      have expand : trimBy p (trimBy p l) =
          (((trimBy p l).dropWhile p).reverse.dropWhile p).reverse := rfl
      rw [expand, hd, hrd, List.reverse_reverse]

theorem pstrip_idem (s : String) : pstrip (pstrip s) = pstrip s :=
  congrArg String.mk (trimBy_idem isPyWS s.data)

theorem _normalize_scalar_idem (v : JVal) :
    _normalize_scalar (_normalize_scalar v) = _normalize_scalar v := by
  cases v with
  | str s =>
    rcases norm_scalar_str_cases s with ⟨h, -⟩ | ⟨h, -⟩ | ⟨h, -⟩ | ⟨h, h1, h2, h3⟩
    · rw [h]; rfl
    · rw [h]; rfl
    · rw [h]; rfl
    · rw [h, norm_scalar_str_eq]
      simp only [pstrip_idem]
      rw [if_neg h1, if_neg h2, if_neg h3]
  | null => rfl
  | bool b => rfl
  | num q => rfl
  | arr xs => rfl
  | obj kvs => rfl

/-- Normalization preserves being a dict. -/
theorem jIsObj_normalize (v : JVal) : jIsObj (_normalize_obj v) = jIsObj v := by
  cases v with
  | obj kvs => rfl
  | arr xs => rfl
  | null => rfl
  | bool b => rfl
  | num q => rfl
  | str s =>
    rw [norm_obj_str]
    rcases norm_scalar_str_cases s with ⟨h, -⟩ | ⟨h, -⟩ | ⟨h, -⟩ | ⟨h, -⟩ <;> rw [h] <;> rfl

mutual

theorem _normalize_obj_idem : ∀ v : JVal,
    _normalize_obj (_normalize_obj v) = _normalize_obj v
  | .obj kvs => by
    rw [norm_obj_obj, norm_obj_obj, normObjList_idem kvs]
  | .arr xs => by
    rw [norm_obj_arr, norm_obj_arr, normArrList_idem xs]
  | .null => rfl
  | .bool b => rfl
  | .num q => rfl
  | .str s => by
    rw [norm_obj_str]
    rcases norm_scalar_str_cases s with ⟨h, -⟩ | ⟨h, -⟩ | ⟨h, -⟩ | ⟨h, h1, h2, h3⟩
    · rw [h]; rfl
    · rw [h]; rfl
    · rw [h]; rfl
    · rw [h, norm_obj_str, norm_scalar_str_eq]
      simp only [pstrip_idem]
      rw [if_neg h1, if_neg h2, if_neg h3]

theorem normArrList_idem : ∀ xs : List JVal,
    normArrList (normArrList xs) = normArrList xs
  | [] => rfl
  | v :: vs => by
    show _normalize_obj (_normalize_obj v) :: normArrList (normArrList vs)
        = _normalize_obj v :: normArrList vs
    rw [_normalize_obj_idem v, normArrList_idem vs]

theorem normObjList_idem : ∀ kvs : List (String × JVal),
    normObjList (normObjList kvs) = normObjList kvs
  | [] => rfl
  | e :: kvs => by
    show (e.1, _normalize_obj (_normalize_obj e.2)) :: normObjList (normObjList kvs)
        = (e.1, _normalize_obj e.2) :: normObjList kvs
    rw [_normalize_obj_idem e.2, normObjList_idem kvs]

end

theorem find?_jIsObj_normArrList (xs : List JVal) :
    (normArrList xs).find? jIsObj = (xs.find? jIsObj).map _normalize_obj := by
  induction xs with
  | nil => rfl
  | cons v vs ih =>
    by_cases h : jIsObj v = true
    · have h' : jIsObj (_normalize_obj v) = true := by rw [jIsObj_normalize]; exact h
      show List.find? jIsObj (_normalize_obj v :: normArrList vs) = _
      rw [List.find?_cons_of_pos _ h', List.find?_cons_of_pos _ h]
      rfl
    · simp only [Bool.not_eq_true] at h
      have h' : jIsObj (_normalize_obj v) = false := by rw [jIsObj_normalize]; exact h
      show List.find? jIsObj (_normalize_obj v :: normArrList vs) = _
      rw [List.find?_cons_of_neg _ (by simp [h']), List.find?_cons_of_neg _ (by simp [h]), ih]

/-- The value returned by `normalize_case_data` is always the
normalization of some value, and is a dict. -/
theorem normalize_case_data_shape (v : JVal) :
    ∃ w, normalize_case_data v = _normalize_obj w ∧
      jIsObj (normalize_case_data v) = true := by
  unfold normalize_case_data
  cases v with
  | obj kvs =>
    exact ⟨.obj kvs, by rw [norm_obj_obj], by rw [norm_obj_obj]; rfl⟩
  | arr ys =>
    rw [norm_obj_arr]
    cases hf : (normArrList ys).find? jIsObj with
    | some d =>
      have := find?_jIsObj_normArrList ys
      rw [hf] at this
      cases he : ys.find? jIsObj with
      | some e =>
        rw [he] at this
        have hd : d = _normalize_obj e := by
          have h2 := this.symm
          simp only [Option.map_some'] at h2
          injection h2 with h3
          exact h3.symm
        have hobj : jIsObj d = true := List.find?_some hf
        exact ⟨e, by simp [hf, hd], by simp [hf, hobj]⟩
      | none => rw [he] at this; simp at this
    | none =>
      exact ⟨.obj [], by simp [hf]; rfl, by simp [hf]; rfl⟩
  | null => exact ⟨.obj [], by rw [norm_obj_null]; rfl, by rw [norm_obj_null]; rfl⟩
  | bool b =>
    refine ⟨.obj [], ?_, ?_⟩ <;> rw [norm_obj_bool] <;> rfl
  | num q =>
    refine ⟨.obj [], ?_, ?_⟩ <;> rw [norm_obj_num] <;> rfl
  | str s =>
    rw [norm_obj_str]
    rcases norm_scalar_str_cases s with ⟨h, -⟩ | ⟨h, -⟩ | ⟨h, -⟩ | ⟨h, -⟩ <;> rw [h] <;>
      exact ⟨.obj [], rfl, rfl⟩

theorem normalize_case_data_isObj (v : JVal) :
    jIsObj (normalize_case_data v) = true :=
  (normalize_case_data_shape v).choose_spec.2

/-- Normalizing an already-normalized dict value is the identity. -/
theorem normalize_case_data_of_normalized {w : JVal}
    (h : jIsObj (_normalize_obj w) = true) :
    normalize_case_data (_normalize_obj w) = _normalize_obj w := by
  unfold normalize_case_data
  rw [_normalize_obj_idem]
  cases hw : _normalize_obj w with
  | obj kvs => rfl
  | arr xs => rw [hw] at h; exact absurd h (by simp [jIsObj])
  | null => rw [hw] at h; exact absurd h (by simp [jIsObj])
  | bool b => rw [hw] at h; exact absurd h (by simp [jIsObj])
  | num q => rw [hw] at h; exact absurd h (by simp [jIsObj])
  | str s => rw [hw] at h; exact absurd h (by simp [jIsObj])

theorem normalize_case_data_idem (v : JVal) :
    normalize_case_data (normalize_case_data v) = normalize_case_data v := by
  obtain ⟨w, hw, hobj⟩ := normalize_case_data_shape v
  rw [hw]
  exact normalize_case_data_of_normalized (hw ▸ hobj)

/-! ## Report Classifier (`field_mapper.py` lines 543–643) -/

/-- Python `v in (None, False, "")` under `==` semantics: `0 == False`, so
numeric zero is also caught. -/
def inNoneFalseEmpty (v : JVal) : Bool :=
  v == .null || v == .bool false || v == .str "" || v == .num 0

/-- Leaf case of the module-level `_to_list` (`field_mapper.py` 543–552):
normalize, drop null/false/empty, stringify. -/
def toListLeaf (v : JVal) : List String :=
  if inNoneFalseEmpty (_normalize_obj v) then [] else [pyStr (_normalize_obj v)]

mutual

/-- Module-level `_to_list` (`field_mapper.py` 543–552): flatten lists
recursively, normalize leaves, drop null/false/empty, stringify. -/
def _to_list : JVal → List String
  | .arr xs => toListFlat xs
  | .null => toListLeaf .null
  | .bool b => toListLeaf (.bool b)
  | .num q => toListLeaf (.num q)
  | .str s => toListLeaf (.str s)
  | .obj kvs => toListLeaf (.obj kvs)

def toListFlat : List JVal → List String
  | [] => []
  | v :: vs => _to_list v ++ toListFlat vs

end

/-- `(x or "").strip().lower()` on a value: falsy values become the empty
string, truthy non-strings raise. -/
def asStrippedLower (v : JVal) : Option String :=
  match pyOr v (.str "") with
  | .str s => some (plower (pstrip s))
  | _ => none

def CASH_TOKENS : List String := ["cash", "currency", "cash_deposit"]

/-- `_is_cash_transaction` (`field_mapper.py` 555–560): strip/lower the
three tag fields, join with spaces, look for a cash token. -/
def _is_cash_transaction (tx : JVal) : Option Bool :=
  (asStrippedLower (objGetD tx "instrument_type" (.str ""))).bind (fun instrument =>
  (asStrippedLower (objGetD tx "product_type" (.str ""))).bind (fun product =>
  (asStrippedLower (objGetD tx "type" (.str ""))).bind (fun txType =>
  some (CASH_TOKENS.any
    (fun token => containsSub (instrument ++ " " ++ product ++ " " ++ txType) token)))))

/-- `float(tx.get("amount_usd", 0) or 0)`. -/
def txCashAmount (tx : JVal) : Option ℚ :=
  pyFloat (pyOr (objGetD tx "amount_usd" (.num 0)) (.num 0))

/-- One iteration of the summation loop in `calculate_total_cash_amount`
(`field_mapper.py` 567–571): skip non-dicts, add the amount of cash
transactions. -/
def sumCashTx (total : ℚ) (tx : JVal) : Option ℚ :=
  if jIsObj tx then
    (_is_cash_transaction tx).bind (fun cash =>
      if cash then (txCashAmount tx).map (fun a => total + a) else some total)
  else some total

def calcLoop : ℚ → List JVal → Option ℚ
  | total, [] => some total
  | total, tx :: rest => (sumCashTx total tx).bind (fun t => calcLoop t rest)

/-- `calculate_total_cash_amount` (`field_mapper.py` 563–572). -/
def calculate_total_cash_amount (case_data : JVal) : Option ℚ :=
  (pyIterate (objGetD (normalize_case_data case_data) "transactions" (.arr []))).bind
    (fun txs => calcLoop 0 txs)

def SUSPICIOUS_TOKENS : List String :=
  ["structur", "fraud", "launder", "suspicious", "terror", "sanction",
   "unusual", "no apparent", "kiting", "embezz"]

def NON_SAR_TOKENS : List String :=
  ["exceeds $10,000", "exceeds 10,000", "10k", "threshold"]

/-- The token-matching tail of `_text_indicates_suspicion` (lines
600–625), applied to the already-lowered text: empty text is rejected,
suspicion-lexicon tokens are checked first, then the threshold-only veto
tokens, defaulting to `False`. -/
def tisCore (lowered : String) : Bool :=
  if lowered == "" then false
  else if SUSPICIOUS_TOKENS.any (fun t => containsSub lowered t) then true
  else if NON_SAR_TOKENS.any (fun t => containsSub lowered t) then false
  else false

/-- `_text_indicates_suspicion` (`field_mapper.py` 598–625):
`lowered = str(_normalize_scalar(text) or "").lower()`, then token
matching (`tisCore`). -/
def _text_indicates_suspicion (text : String) : Bool :=
  tisCore (plower (pyStr (pyOr (_normalize_scalar (.str text)) (.str ""))))

def SUSPICIOUS_FIELDS : List String :=
  ["29_Structuring", "30_TerroristFinancing", "31_Fraud",
   "33_MoneyLaundering", "35_OtherSuspiciousActivities", "38_MortgageFraud"]

/-- The generator `any(_to_list(activity.get(name)) for name in
suspicious_fields)` of `has_suspicious_activity`: lazily gets each field
(raising on a non-dict receiver) and stops at the first non-empty one. -/
def anyGroupActive (activity : JVal) : List String → Option Bool
  | [] => some false
  | n :: rest =>
    (pyDictGet activity n .null).bind (fun g =>
      if !(_to_list g).isEmpty then some true else anyGroupActive activity rest)

/-- `has_suspicious_activity` (`field_mapper.py` 575–595); the local
names `normalized_case`, `activity` and `alert` are inlined. -/
def has_suspicious_activity (case_data : JVal) : Option Bool :=
  (anyGroupActive
      (objGetD (normalize_case_data case_data) "SuspiciousActivityInformation" (.obj []))
      SUSPICIOUS_FIELDS).bind (fun ga =>
    if ga then some true
    else
      (pyDictGet (objGetD (normalize_case_data case_data) "alert" (.obj []))
          "red_flags" .null).bind (fun rf =>
        if (_to_list rf).any _text_indicates_suspicion then some true
        else
          (pyDictGet (objGetD (normalize_case_data case_data) "alert" (.obj []))
              "trigger_reasons" .null).bind (fun tr =>
            if (_to_list tr).any _text_indicates_suspicion then some true
            else some false)))

/-- `determine_report_types` (`field_mapper.py` 628–642): CTR when the
cash total meets the `10000.0` threshold, then SAR on suspicion. -/
def determine_report_types (case_data : JVal) : Option (List String) :=
  (calculate_total_cash_amount case_data).bind (fun total =>
  (has_suspicious_activity case_data).bind (fun susp =>
    some ((if (10000 : ℚ) ≤ total then ["CTR"] else []) ++
          (if susp then ["SAR"] else []))))

/-! ### Claim-side (spec-worded) classifier definitions -/

/-- C1's qualifying-transaction predicate, in the claim's words: the
concatenated instrument/product/type text (fields stripped and lowered,
as the code concatenates them) contains `"cash"`, `"currency"` or
`"cash_deposit"` as a substring. -/
def claimQualifiesAsCash (tx : JVal) : Option Bool :=
  (asStrippedLower (objGetD tx "instrument_type" (.str ""))).bind (fun i =>
  (asStrippedLower (objGetD tx "product_type" (.str ""))).bind (fun p =>
  (asStrippedLower (objGetD tx "type" (.str ""))).bind (fun t =>
  some (containsSub (i ++ " " ++ p ++ " " ++ t) "cash" ||
        containsSub (i ++ " " ++ p ++ " " ++ t) "currency" ||
        containsSub (i ++ " " ++ p ++ " " ++ t) "cash_deposit"))))

def claimSumTx (total : ℚ) (tx : JVal) : Option ℚ :=
  if jIsObj tx then
    (claimQualifiesAsCash tx).bind (fun cash =>
      if cash then (txCashAmount tx).map (fun a => total + a) else some total)
  else some total

def claimCalcLoop : ℚ → List JVal → Option ℚ
  | total, [] => some total
  | total, tx :: rest => (claimSumTx total tx).bind (fun t => claimCalcLoop t rest)

/-- C1's cash total, in the claim's words: the sum of the amount over all
qualifying transactions of the (normalized) case. -/
def claimQualifyingCashTotal (case_data : JVal) : Option ℚ :=
  (pyIterate (objGetD (normalize_case_data case_data) "transactions" (.arr []))).bind
    (fun txs => claimCalcLoop 0 txs)

/-- C2's condition (a), in the claim's words: one of the six named
suspicious-activity indicator groups is non-empty/true — i.e. still has
content after normalization and the dropping of null/false/empty
entries. -/
def claimGroupSignal (c : JVal) : Bool :=
  SUSPICIOUS_FIELDS.any (fun n =>
    !(_to_list (objGetD (objGetD (normalize_case_data c)
        "SuspiciousActivityInformation" (.obj [])) n .null)).isEmpty)

/-- The free-text items under alert red-flags and trigger-reasons. -/
def claimAlertTexts (c : JVal) : List String :=
  _to_list (objGetD (objGetD (normalize_case_data c) "alert" (.obj [])) "red_flags" .null) ++
  _to_list (objGetD (objGetD (normalize_case_data c) "alert" (.obj [])) "trigger_reasons" .null)

/-- C2's condition (b), in the claim's words: some free-text item under
alert red-flags or trigger-reasons contains a suspicion-lexicon token as a
case-insensitive substring (matched on the trimmed, lowered item; the
tokens carry no edge whitespace, so trimming cannot affect a match). -/
def claimLexiconSignal (c : JVal) : Bool :=
  (claimAlertTexts c).any (fun item =>
    SUSPICIOUS_TOKENS.any (fun t => containsSub (plower (pstrip item)) t))

/-! ### Classifier lemmas -/

theorem plower_eq_empty_iff (s : String) : plower s = "" ↔ s = "" := by
  constructor
  · intro h
    have hd : s.data.map Char.toLower = ([] : List Char) := by
      have := congrArg String.data h
      simpa [plower] using this
    have : s.data = [] := by simpa using hd
    cases s; simp_all
  · intro h; rw [h]; rfl

/-- `tisCore` returns exactly "a suspicion-lexicon token occurs": the
empty-string guard and the threshold-veto branch both return `False`
anyway. -/
theorem tisCore_eq (lw : String) :
    tisCore lw = SUSPICIOUS_TOKENS.any (fun t => containsSub lw t) := by
  by_cases hlw : lw = ""
  · subst hlw; decide
  · have hne : (lw == "") = false := by simp [hlw]
    unfold tisCore
    rw [hne]
    simp only [Bool.false_eq_true, if_false]
    cases h : SUSPICIOUS_TOKENS.any (fun t => containsSub lw t)
    · simp only [if_false, Bool.false_eq_true]
      split_ifs <;> rfl
    · simp

/-- Characterization of `_text_indicates_suspicion`: it holds exactly
when a suspicion-lexicon token occurs in the trimmed, lowered text.  The
normalization step inside cannot create or destroy a token: the
null/true/false fold only hits texts from the short token lists, none of
which contains a lexicon token. -/
theorem tis_char (s : String) :
    _text_indicates_suspicion s =
      SUSPICIOUS_TOKENS.any (fun t => containsSub (plower (pstrip s)) t) := by
  show tisCore (plower (pyStr (pyOr (_normalize_scalar (.str s)) (.str "")))) = _
  rcases norm_scalar_str_cases s with ⟨h, hmem⟩ | ⟨h, hmem⟩ | ⟨h, hmem⟩ | ⟨h, -⟩
  · rw [h]
    have hL : tisCore (plower (pyStr (pyOr JVal.null (.str "")))) = false := by decide
    rw [hL]
    symm
    simp only [NULL_STRINGS, List.mem_cons, List.not_mem_nil, or_false] at hmem
    rcases hmem with he | he | he | he | he <;> rw [he] <;> decide
  · rw [h]
    have hL : tisCore (plower (pyStr (pyOr (JVal.bool true) (.str "")))) = false := by decide
    rw [hL]
    symm
    simp only [TRUE_STRINGS, List.mem_cons, List.not_mem_nil, or_false] at hmem
    rcases hmem with he | he | he | he | he <;> rw [he] <;> decide
  · rw [h]
    have hL : tisCore (plower (pyStr (pyOr (JVal.bool false) (.str "")))) = false := by decide
    rw [hL]
    symm
    simp only [FALSE_STRINGS, List.mem_cons, List.not_mem_nil, or_false] at hmem
    rcases hmem with he | he | he | he | he <;> rw [he] <;> decide
  · rw [h]
    by_cases he : pstrip s = ""
    · rw [he]; decide
    · have ht : pyOr (.str (pstrip s)) (.str "") = .str (pstrip s) := by
        simp [pyOr, pyTruthy, he]
      rw [ht]
      exact tisCore_eq _

theorem tis_funext :
    _text_indicates_suspicion =
      (fun item => SUSPICIOUS_TOKENS.any (fun t => containsSub (plower (pstrip item)) t)) :=
  funext tis_char

theorem anyGroupActive_obj (kvs : List (String × JVal)) (fields : List String) :
    anyGroupActive (.obj kvs) fields =
      some (fields.any (fun n => !(_to_list (objGetD (.obj kvs) n .null)).isEmpty)) := by
  induction fields with
  | nil => rfl
  | cons n rest ih =>
    show (some (lookupD kvs n .null)).bind _ = _
    simp only [Option.some_bind]
    cases hp : (_to_list (lookupD kvs n .null)).isEmpty
    · simp [objGetD, hp]
    · simp [objGetD, hp, ih]

theorem anyGroupActive_not_obj (v : JVal) (h : jIsObj v = false)
    (fields : List String) (hf : fields ≠ []) : anyGroupActive v fields = none := by
  cases fields with
  | nil => exact absurd rfl hf
  | cons n rest =>
    cases v with
    | obj kvs => simp [jIsObj] at h
    | null => rfl
    | bool b => rfl
    | num q => rfl
    | str s => rfl
    | arr xs => rfl

/-- Characterization of `has_suspicious_activity`: whenever it returns
(rather than raising), the result is condition (a) or condition (b) of
the specification. -/
theorem has_susp_char (c : JVal) (b : Bool)
    (h : has_suspicious_activity c = some b) :
    b = (claimGroupSignal c || claimLexiconSignal c) := by
  unfold has_suspicious_activity at h
  cases hact : objGetD (normalize_case_data c) "SuspiciousActivityInformation" (.obj []) with
  | obj kvs =>
    rw [hact, anyGroupActive_obj] at h
    simp only [Option.some_bind] at h
    have hga : claimGroupSignal c =
        SUSPICIOUS_FIELDS.any (fun n => !(_to_list (objGetD (.obj kvs) n .null)).isEmpty) := by
      unfold claimGroupSignal
      rw [hact]
    cases hg : SUSPICIOUS_FIELDS.any (fun n => !(_to_list (objGetD (.obj kvs) n .null)).isEmpty) with
    | true =>
      rw [hg] at h
      simp only [if_true] at h
      injection h with hb
      rw [← hb, hga, hg]
      rfl
    | false =>
      rw [hg] at h
      simp only [Bool.false_eq_true, if_false] at h
      cases halert : objGetD (normalize_case_data c) "alert" (.obj []) with
      | obj akvs =>
        rw [halert] at h
        simp only [pyDictGet, Option.some_bind] at h
        have hA : claimAlertTexts c =
            _to_list (lookupD akvs "red_flags" .null) ++
            _to_list (lookupD akvs "trigger_reasons" .null) := by
          unfold claimAlertTexts
          rw [halert]
          rfl
        have hcl : claimLexiconSignal c =
            ((_to_list (lookupD akvs "red_flags" .null)).any _text_indicates_suspicion ||
             (_to_list (lookupD akvs "trigger_reasons" .null)).any _text_indicates_suspicion) := by
          unfold claimLexiconSignal
          rw [hA, List.any_append, tis_funext]
        cases hrf : (_to_list (lookupD akvs "red_flags" .null)).any _text_indicates_suspicion with
        | true =>
          rw [hrf] at h
          simp only [if_true] at h
          injection h with hb
          rw [← hb, hga, hg, hcl, hrf]
          rfl
        | false =>
          rw [hrf] at h
          simp only [Bool.false_eq_true, if_false] at h
          cases htr : (_to_list (lookupD akvs "trigger_reasons" .null)).any _text_indicates_suspicion with
          | true =>
            rw [htr] at h
            simp only [if_true] at h
            injection h with hb
            rw [← hb, hga, hg, hcl, hrf, htr]
            rfl
          | false =>
            rw [htr] at h
            simp only [Bool.false_eq_true, if_false] at h
            injection h with hb
            rw [← hb, hga, hg, hcl, hrf, htr]
            rfl
      | null => rw [halert] at h; simp [pyDictGet] at h
      | bool b2 => rw [halert] at h; simp [pyDictGet] at h
      | num q => rw [halert] at h; simp [pyDictGet] at h
      | str s => rw [halert] at h; simp [pyDictGet] at h
      | arr xs => rw [halert] at h; simp [pyDictGet] at h
  | null =>
    rw [hact, anyGroupActive_not_obj JVal.null rfl SUSPICIOUS_FIELDS (by decide)] at h
    simp at h
  | bool b2 =>
    rw [hact, anyGroupActive_not_obj (JVal.bool b2) (by cases b2 <;> rfl) SUSPICIOUS_FIELDS (by decide)] at h
    simp at h
  | num q =>
    rw [hact, anyGroupActive_not_obj (JVal.num q) rfl SUSPICIOUS_FIELDS (by decide)] at h
    simp at h
  | str s =>
    rw [hact, anyGroupActive_not_obj (JVal.str s) rfl SUSPICIOUS_FIELDS (by decide)] at h
    simp at h
  | arr xs =>
    rw [hact, anyGroupActive_not_obj (JVal.arr xs) rfl SUSPICIOUS_FIELDS (by decide)] at h
    simp at h

theorem claimQualifies_eq (tx : JVal) :
    claimQualifiesAsCash tx = _is_cash_transaction tx := by
  unfold claimQualifiesAsCash _is_cash_transaction
  congr 1
  funext i
  congr 1
  funext p
  congr 1
  funext t
  congr 1
  simp [CASH_TOKENS, List.any_cons, List.any_nil, Bool.or_false, Bool.or_assoc]

theorem claimSumTx_eq (tot : ℚ) (tx : JVal) : claimSumTx tot tx = sumCashTx tot tx := by
  unfold claimSumTx sumCashTx
  rw [claimQualifies_eq]

theorem claimCalcLoop_eq : ∀ (txs : List JVal) (tot : ℚ),
    claimCalcLoop tot txs = calcLoop tot txs
  | [], _ => rfl
  | tx :: rest, tot => by
    show (claimSumTx tot tx).bind _ = (sumCashTx tot tx).bind _
    rw [claimSumTx_eq]
    exact congrArg (Option.bind _) (funext fun t => claimCalcLoop_eq rest t)

/-- Claim C1: `determine_report_types` includes `"CTR"` exactly when the
total qualifying cash — the sum of the amount over all transactions whose
concatenated instrument/product/type text contains a cash token as a
case-insensitive substring (`claimQualifyingCashTotal`, which provably
coincides with the code's `calculate_total_cash_amount`) — is at least
10,000.00, equality included. -/
theorem claim_C1 :
    (∀ c, claimQualifyingCashTotal c = calculate_total_cash_amount c) ∧
    (∀ (c : JVal) (rts : List String) (tot : ℚ),
      determine_report_types c = some rts →
      calculate_total_cash_amount c = some tot →
      ("CTR" ∈ rts ↔ (10000 : ℚ) ≤ tot)) := by
  constructor
  · intro c
    unfold claimQualifyingCashTotal calculate_total_cash_amount
    exact congrArg (Option.bind _) (funext fun txs => claimCalcLoop_eq txs 0)
  · intro c rts tot hd hc
    unfold determine_report_types at hd
    rw [hc] at hd
    simp only [Option.some_bind] at hd
    cases hs : has_suspicious_activity c with
    | none => rw [hs] at hd; simp at hd
    | some s =>
      rw [hs] at hd
      simp only [Option.some_bind] at hd
      injection hd with hrts
      subst hrts
      by_cases h10 : (10000 : ℚ) ≤ tot
      · cases s <;> simp [h10]
      · cases s <;> simp [h10]

def c1ExampleCase : JVal :=
  .obj [("transactions", .arr [
    .obj [("amount_usd", .num 9200), ("instrument_type", .str "cash")],
    .obj [("amount_usd", .num 9500), ("instrument_type", .str "cash")],
    .obj [("amount_usd", .num 9800), ("instrument_type", .str "cash")],
    .obj [("amount_usd", .num 9100), ("instrument_type", .str "cash")]])]

/-- Witness for C1: the four cash deposits of the specification's worked
example total 37,600 and classify as `["CTR"]`.  (Rational sums do not
kernel-reduce, so the structural evaluation is by `rfl` and the sum is
closed by `norm_num`.) -/
theorem claim_C1_witness :
    determine_report_types c1ExampleCase = some ["CTR"] ∧
    calculate_total_cash_amount c1ExampleCase = some 37600 ∧
    ("CTR" ∈ ["CTR"] ↔ (10000 : ℚ) ≤ 37600) := by
  have hx : calculate_total_cash_amount c1ExampleCase =
      some ((0 : ℚ) + 9200 + 9500 + 9800 + 9100) := rfl
  have hv : ((0 : ℚ) + 9200 + 9500 + 9800 + 9100) = 37600 := by norm_num
  rw [hv] at hx
  have hs : has_suspicious_activity c1ExampleCase = some false := by decide
  have hd : determine_report_types c1ExampleCase = some ["CTR"] := by
    unfold determine_report_types
    rw [hx, hs]
    simp only [Option.some_bind]
    rw [if_pos (by norm_num : (10000 : ℚ) ≤ 37600)]
    rfl
  exact ⟨hd, hx, claim_C1.2 c1ExampleCase ["CTR"] 37600 hd hx⟩

/-- Claim C2: `determine_report_types` includes `"SAR"` exactly when one
of the six named suspicious-activity indicator groups is non-empty/true
(`claimGroupSignal`) or some free-text item under alert red-flags or
trigger-reasons contains a suspicion-lexicon token as a case-insensitive
substring (`claimLexiconSignal`); and when both the CTR and SAR
conditions hold, the result is exactly `["CTR", "SAR"]` in that order. -/
theorem claim_C2 : ∀ (c : JVal) (rts : List String),
    determine_report_types c = some rts →
    (("SAR" ∈ rts) ↔ (claimGroupSignal c = true ∨ claimLexiconSignal c = true)) ∧
    ("CTR" ∈ rts → "SAR" ∈ rts → rts = ["CTR", "SAR"]) := by
  intro c rts hd
  unfold determine_report_types at hd
  cases hc : calculate_total_cash_amount c with
  | none => rw [hc] at hd; simp at hd
  | some tot =>
    rw [hc] at hd
    simp only [Option.some_bind] at hd
    cases hs : has_suspicious_activity c with
    | none => rw [hs] at hd; simp at hd
    | some s =>
      rw [hs] at hd
      simp only [Option.some_bind] at hd
      injection hd with hrts
      subst hrts
      have hchar := has_susp_char c s hs
      constructor
      · have hmem : ("SAR" ∈ (if (10000 : ℚ) ≤ tot then ["CTR"] else []) ++
            (if s then ["SAR"] else [])) ↔ s = true := by
          by_cases h10 : (10000 : ℚ) ≤ tot <;> cases s <;> simp [h10]
        rw [hmem, hchar, Bool.or_eq_true]
      · intro hctr hsar
        have h10 : (10000 : ℚ) ≤ tot := by
          by_contra h10
          cases s <;> simp [h10] at hctr
        have hst : s = true := by
          cases s
          · simp [h10] at hsar
          · rfl
        simp [h10, hst]

def c2ExampleCase : JVal :=
  .obj [("transactions", .arr [.obj [("amount_usd", .num 10000),
          ("instrument_type", .str "cash")]]),
        ("alert", .obj [("red_flags", .arr [.str "unusual volume of transfers"])])]

/-- Witness for C2: a case with exactly 10,000 in cash (equality counts)
and a red flag matching the lexicon token `"unusual"` classifies as
`["CTR", "SAR"]`, in that order. -/
theorem claim_C2_witness :
    determine_report_types c2ExampleCase = some ["CTR", "SAR"] ∧
    (("SAR" ∈ ["CTR", "SAR"]) ↔
      (claimGroupSignal c2ExampleCase = true ∨ claimLexiconSignal c2ExampleCase = true)) ∧
    ((["CTR", "SAR"] : List String) = ["CTR", "SAR"]) := by
  have hx : calculate_total_cash_amount c2ExampleCase = some ((0 : ℚ) + 10000) := rfl
  have hv : ((0 : ℚ) + 10000) = 10000 := by norm_num
  rw [hv] at hx
  have hs : has_suspicious_activity c2ExampleCase = some true := by decide
  have hd : determine_report_types c2ExampleCase = some ["CTR", "SAR"] := by
    unfold determine_report_types
    rw [hx, hs]
    simp only [Option.some_bind]
    rw [if_pos (by norm_num : (10000 : ℚ) ≤ 10000)]
    rfl
  exact ⟨hd, (claim_C2 c2ExampleCase ["CTR", "SAR"] hd).1,
    (claim_C2 c2ExampleCase ["CTR", "SAR"] hd).2 (by decide) (by decide)⟩

/-- Claim C3: a red-flag/trigger-reason string containing a
threshold-language token but no suspicion-lexicon token never counts as a
suspicion signal; a string containing both a suspicion-lexicon token and
a threshold-only token counts as a suspicion signal (the lexicon check
runs first in `_text_indicates_suspicion`). -/
theorem claim_C3 : ∀ s : String,
    ((NON_SAR_TOKENS.any (fun t => containsSub (plower (pstrip s)) t) = true ∧
      SUSPICIOUS_TOKENS.any (fun t => containsSub (plower (pstrip s)) t) = false) →
      _text_indicates_suspicion s = false) ∧
    ((SUSPICIOUS_TOKENS.any (fun t => containsSub (plower (pstrip s)) t) = true ∧
      NON_SAR_TOKENS.any (fun t => containsSub (plower (pstrip s)) t) = true) →
      _text_indicates_suspicion s = true) := by
  intro s
  constructor
  · rintro ⟨-, hn⟩
    rw [tis_char]
    exact hn
  · rintro ⟨hy, -⟩
    rw [tis_char]
    exact hy

/-- Witness for C3: `"transaction exceeds $10,000 threshold"` is
threshold-only and does not signal suspicion; `"structuring to stay under
the 10k threshold"` contains both kinds of token and signals suspicion. -/
theorem claim_C3_witness :
    _text_indicates_suspicion "transaction exceeds $10,000 threshold" = false ∧
    _text_indicates_suspicion "structuring to stay under the 10k threshold" = true :=
  ⟨(claim_C3 "transaction exceeds $10,000 threshold").1 ⟨by decide, by decide⟩,
   (claim_C3 "structuring to stay under the 10k threshold").2 ⟨by decide, by decide⟩⟩

/-- Claim C6: `normalize_case_data` is total (never raises) and always
returns a mapping; for a list input it returns the (normalized) first
element that is itself a mapping — selection commutes with normalization,
which preserves mapping-ness — or `{}` when no element is a mapping; for
any scalar input it returns `{}`. -/
theorem claim_C6 :
    (∀ v : JVal, jIsObj (normalize_case_data v) = true) ∧
    (∀ xs : List JVal, normalize_case_data (.arr xs) =
      _normalize_obj ((xs.find? jIsObj).getD (.obj []))) ∧
    (∀ s, normalize_case_data (.str s) = .obj []) ∧
    (∀ q, normalize_case_data (.num q) = .obj []) ∧
    (∀ b, normalize_case_data (.bool b) = .obj []) ∧
    (normalize_case_data .null = .obj []) := by
  refine ⟨normalize_case_data_isObj, ?_, ?_, fun q => rfl, fun b => rfl, rfl⟩
  · intro xs
    have h1 : normalize_case_data (.arr xs) =
        (match (normArrList xs).find? jIsObj with
         | some d => d
         | none => JVal.obj []) := rfl
    rw [h1, find?_jIsObj_normArrList]
    cases hf : xs.find? jIsObj with
    | some d => rfl
    | none => rfl
  · intro s
    show (match _normalize_obj (.str s) with
          | JVal.obj kvs => JVal.obj kvs
          | JVal.arr xs =>
            (match xs.find? jIsObj with
             | some d => d
             | none => JVal.obj [])
          | _ => JVal.obj []) = JVal.obj []
    rw [norm_obj_str]
    rcases norm_scalar_str_cases s with ⟨h, -⟩ | ⟨h, -⟩ | ⟨h, -⟩ | ⟨h, -⟩ <;> rw [h]

/-- Claim C7: the Normalizer is idempotent — `normalize_case_data`
applied to its own output returns an equal structure. -/
theorem claim_C7 : ∀ v : JVal,
    normalize_case_data (normalize_case_data v) = normalize_case_data v :=
  normalize_case_data_idem

/-! ## Form Filler (`pdf_tools.py` lines 36–133)

The pypdf reader/writer is external: a template is modelled by the
per-page sets of owned field names (`pageFields`, what
`_collect_page_fields` computes for each page), and
`writer.update_page_form_field_values` by an exception oracle
`exc : page index → field id → Option String` (`none` = the write
succeeds, `some msg` = it raises with message `msg`). -/

/-- `BaseReportFiler._page_for_field` (`pdf_tools.py` 124–133): explicit
page-3 field set, then page-3 prefixes, then page-2 prefixes (equality or
prefix), else page 1 (index 0). -/
def _page_for_field (p3fields p3prefixes p2prefixes : List String) (field_id : String) : ℕ :=
  if p3fields.contains field_id then 2
  else if p3prefixes.any (fun p => pstartsWith p field_id) then 2
  else if p2prefixes.any (fun p => field_id == p || pstartsWith p field_id) then 1
  else 0

/-- One iteration of the fill loop of `BaseReportFiler._fill_pdf`
(`pdf_tools.py` 76–98): route the field to a page, fall back to a scan of
all pages when the routed page does not own it, record out-of-range /
not-found / write-exception errors, count successful writes. -/
def fillEntry (pf : List (List String)) (p3f p3p p2p : List String)
    (exc : ℕ → String → Option String) (acc : ℕ × List String) (fv : String × String) :
    ℕ × List String :=
  if pf.length ≤ _page_for_field p3f p3p p2p fv.1 then
    (acc.1, acc.2 ++ [fv.1 ++ ": page index " ++
      natStr (_page_for_field p3f p3p p2p fv.1) ++ " out of range"])
  else if (pf.getD (_page_for_field p3f p3p p2p fv.1) []).contains fv.1 then
    match exc (_page_for_field p3f p3p p2p fv.1) fv.1 with
    | none => (acc.1 + 1, acc.2)
    | some msg => (acc.1, acc.2 ++ [fv.1 ++ ": " ++ msg])
  else
    match (List.range pf.length).find? (fun i => (pf.getD i []).contains fv.1) with
    | some j =>
      match exc j fv.1 with
      | none => (acc.1 + 1, acc.2)
      | some msg => (acc.1, acc.2 ++ [fv.1 ++ ": " ++ msg])
    | none => (acc.1, acc.2 ++ [fv.1 ++ ": field not found in template"])

/-- `BaseReportFiler._fill_pdf` (`pdf_tools.py` 66–102), the loop over
the field/value table: returns the count of successfully written fields
and the per-field error strings, in order. -/
def BaseReportFiler_fill_pdf (pf : List (List String)) (p3f p3p p2p : List String)
    (exc : ℕ → String → Option String) (field_values : List (String × String)) :
    ℕ × List String :=
  field_values.foldl (fillEntry pf p3f p3p p2p exc) (0, [])

/-- The SAR filer's page-routing constants (`pdf_tools.py` 162–187). -/
def SAR_PAGE2_PREFIXES : List String :=
  ["item33", "item34", "item35", "item36", "item37", "item38", "item39",
   "item40", "item41", "item42", "item43", "item44", "item45", "item46",
   "item47", "item48", "item49", "item50", "37-3"]

def SAR_PAGE3_PREFIXES : List String := []

def SAR_PAGE3_FIELDS : List String := ["item51"]

/-- The CTR filer's page-routing constants (`pdf_tools.py` 226–232). -/
def CTR_PAGE2_PREFIXES : List String := ["F2", "f2", "C2", "c2"]

def CTR_PAGE3_PREFIXES : List String := ["F3", "f3", "C3", "c3", "item-", "text"]

def CTR_PAGE3_FIELDS : List String := []

/-- C5's per-entry contract, in the claim's words: the owning page is
chosen by priority — explicit page-3 field-name set, page-3 prefix list,
page-2 prefix list, else page 1. -/
def claimOwningPage (p3f p3p p2p : List String) (fid : String) : ℕ :=
  if p3f.contains fid then 2
  else if p3p.any (fun p => pstartsWith p fid) then 2
  else if p2p.any (fun p => fid == p || pstartsWith p fid) then 1
  else 0

/-- C5's per-entry outcome, in the claim's words: route by priority; if
the routed page does not own the field, search all pages for the real
owner before giving up; a write exception is recorded as a per-field
error string; `none` means the entry was written successfully. -/
def claimEntryOutcome (pf : List (List String)) (p3f p3p p2p : List String)
    (exc : ℕ → String → Option String) (fv : String × String) : Option String :=
  if pf.length ≤ claimOwningPage p3f p3p p2p fv.1 then
    some (fv.1 ++ ": page index " ++ natStr (claimOwningPage p3f p3p p2p fv.1) ++
      " out of range")
  else if (pf.getD (claimOwningPage p3f p3p p2p fv.1) []).contains fv.1 then
    (exc (claimOwningPage p3f p3p p2p fv.1) fv.1).map (fun m => fv.1 ++ ": " ++ m)
  else
    match (List.range pf.length).find? (fun i => (pf.getD i []).contains fv.1) with
    | some j => (exc j fv.1).map (fun m => fv.1 ++ ": " ++ m)
    | none => some (fv.1 ++ ": field not found in template")

theorem claimOwningPage_eq : claimOwningPage = _page_for_field := rfl

theorem fillEntry_eq (pf : List (List String)) (p3f p3p p2p : List String)
    (exc : ℕ → String → Option String) (acc : ℕ × List String) (fv : String × String) :
    fillEntry pf p3f p3p p2p exc acc fv =
      (acc.1 + (if (claimEntryOutcome pf p3f p3p p2p exc fv).isNone then 1 else 0),
       acc.2 ++ (claimEntryOutcome pf p3f p3p p2p exc fv).toList) := by
  unfold fillEntry claimEntryOutcome
  rw [claimOwningPage_eq]
  by_cases h1 : pf.length ≤ _page_for_field p3f p3p p2p fv.1
  · rw [if_pos h1, if_pos h1]
    simp
  · rw [if_neg h1, if_neg h1]
    by_cases h2 : (pf.getD (_page_for_field p3f p3p p2p fv.1) []).contains fv.1 = true
    · rw [if_pos h2, if_pos h2]
      cases hexc : exc (_page_for_field p3f p3p p2p fv.1) fv.1 <;> simp [hexc]
    · rw [if_neg h2, if_neg h2]
      cases hfind : (List.range pf.length).find? (fun i => (pf.getD i []).contains fv.1) with
      | some j => cases hexc : exc j fv.1 <;> simp [hfind, hexc]
      | none => simp [hfind]

theorem fill_pdf_decomp (pf : List (List String)) (p3f p3p p2p : List String)
    (exc : ℕ → String → Option String) :
    ∀ (fvs : List (String × String)) (n : ℕ) (es : List String),
    List.foldl (fillEntry pf p3f p3p p2p exc) (n, es) fvs =
      (n + fvs.countP (fun fv => (claimEntryOutcome pf p3f p3p p2p exc fv).isNone),
       es ++ fvs.filterMap (claimEntryOutcome pf p3f p3p p2p exc)) := by
  intro fvs
  induction fvs with
  | nil => intro n es; simp
  | cons fv rest ih =>
    intro n es
    rw [List.foldl_cons, fillEntry_eq, ih]
    cases houtcome : claimEntryOutcome pf p3f p3p p2p exc fv with
    | none =>
      simp [List.countP_cons, List.filterMap_cons, houtcome]
      omega
    | some msg =>
      simp [List.countP_cons, List.filterMap_cons, houtcome]

/-- Claim C5: `_fill_pdf` handles every entry of the field/value table
independently: each entry is routed to its owning page by the documented
priority with the all-pages fallback (`claimEntryOutcome`), a write
exception becomes a per-field error string and the fill continues — the
result is exactly the count of successful entries plus the in-order list
of per-entry error strings, for every table, template and exception
oracle (the fill never aborts). -/
theorem claim_C5 : ∀ (pf : List (List String)) (p3f p3p p2p : List String)
    (exc : ℕ → String → Option String) (fvs : List (String × String)),
    BaseReportFiler_fill_pdf pf p3f p3p p2p exc fvs =
      (fvs.countP (fun fv => (claimEntryOutcome pf p3f p3p p2p exc fv).isNone),
       fvs.filterMap (claimEntryOutcome pf p3f p3p p2p exc)) := by
  intro pf p3f p3p p2p exc fvs
  unfold BaseReportFiler_fill_pdf
  rw [fill_pdf_decomp]
  simp

theorem countP_isNone_add_length_filterMap {α β : Type} (f : α → Option β) (l : List α) :
    l.countP (fun a => (f a).isNone) + (l.filterMap f).length = l.length := by
  induction l with
  | nil => simp
  | cons a t ih =>
    cases hf : f a <;>
      simp [List.countP_cons, List.filterMap_cons, hf] <;> omega

/-- Claim C10: for every field/value table, the returned filled count
plus the number of recorded per-field error strings equals the number of
entries — each entry is written exactly once or contributes exactly one
error string. -/
theorem claim_C10 : ∀ (pf : List (List String)) (p3f p3p p2p : List String)
    (exc : ℕ → String → Option String) (fvs : List (String × String)),
    (BaseReportFiler_fill_pdf pf p3f p3p p2p exc fvs).1 +
      (BaseReportFiler_fill_pdf pf p3f p3p p2p exc fvs).2.length = fvs.length := by
  intro pf p3f p3p p2p exc fvs
  unfold BaseReportFiler_fill_pdf
  rw [fill_pdf_decomp]
  simpa using countP_isNone_add_length_filterMap (claimEntryOutcome pf p3f p3p p2p exc) fvs

/-! ## Pipeline Orchestrator (`crew.py` 42–135, `routes.py` 18–25)

The LLM crews (router, researcher, aggregation → narrative → validation)
are external collaborators: the parsed router payload and the parsed
validation payload (`_parse_jsonish` of the respective `kickoff()`
results) enter the model as parameters, and the PDF filers (external file
writes producing a `FilingResult`) as a function `fileReport` from report
type to result payload.  The researcher branch (`kb_status == MISSING`)
discards its result in the source and so does not appear.  The returned
pair is (aggregated result payload, list of report types actually
filed). -/

/-- Lines 56–63 of `crew.py`: decorate the parsed router output with the
deterministic classification. -/
def crewRouterOut (routerParsed : List (String × JVal)) (rts : List String) (tot : ℚ) :
    List (String × JVal) :=
  dSet (dSet (dSet routerParsed "report_types" (.arr (rts.map JVal.str)))
      "total_cash_amount" (.num tot))
    "report_type" (.str (if rts.isEmpty then "NONE"
      else if rts.contains "SAR" then "SAR" else rts.headD ""))

/-- Lines 66–77 of `crew.py`: the short-circuit payloads when no report
type is required. -/
def NO_FILING_VALIDATION : List (String × JVal) :=
  [("approval_flag", .bool false), ("status", .str "NO_FILING_REQUIRED"),
   ("message", .str "No CTR or SAR requirement detected for this case.")]

def NO_FILING_FINAL : List (String × JVal) :=
  [("status", .str "no_filing_required"),
   ("message", .str "No CTR or SAR filing requirements met")]

/-- Lines 108–113 of `crew.py`: the synthetic approval used on the
CTR-only path, where the SAR sub-pipeline is skipped. -/
def CTR_ONLY_VALIDATION : List (String × JVal) :=
  [("approval_flag", .bool true), ("status", .str "APPROVED"),
   ("message", .str "CTR threshold condition met; SAR pipeline skipped.")]

/-- Lines 85–113 of `crew.py`: the validation payload is the external
sub-pipeline's parsed output when SAR is required, else the synthetic
CTR-only approval. -/
def crewValidation (rts : List String) (mainParsed : List (String × JVal)) :
    List (String × JVal) :=
  if rts.contains "SAR" then mainParsed else CTR_ONLY_VALIDATION

/-- Lines 115–129 of `crew.py`: the `approval_flag` truthiness gates
filing; on approval one `FilingResult` per required type (CTR first), a
lone object when exactly one; on rejection the `needs_review` payload and
no filing.  Returns (final payload, report types filed). -/
def crewFinal (rts : List String) (validation : List (String × JVal))
    (fileReport : String → JVal) : JVal × List String :=
  if pyTruthy (lookupD validation "approval_flag" .null) then
    (match ((if rts.contains "CTR" then ["CTR"] else []) ++
            (if rts.contains "SAR" then ["SAR"] else [])).map fileReport with
     | [r] => r
     | rs => .obj [("status", .str "success"), ("reports", .arr rs)],
     (if rts.contains "CTR" then ["CTR"] else []) ++
     (if rts.contains "SAR" then ["SAR"] else []))
  else
    (.obj [("status", .str "needs_review"), ("validation_report", .obj validation),
           ("message", .str "Report did not pass validation - human review required")],
     [])

/-- `create_compliance_crew` (`crew.py` 42–135), with the external agent
payloads as parameters; `none` models an exception escaping the
function. -/
def create_compliance_crew (transaction_data : JVal)
    (routerParsed mainParsed : List (String × JVal)) (fileReport : String → JVal) :
    Option (JVal × List String) :=
  (determine_report_types (normalize_case_data transaction_data)).bind (fun rts =>
  (calculate_total_cash_amount (normalize_case_data transaction_data)).bind (fun tot =>
    if rts.isEmpty then
      some (.obj [("router", .obj (crewRouterOut routerParsed rts tot)),
                  ("validation", .obj NO_FILING_VALIDATION),
                  ("final", .obj NO_FILING_FINAL)], [])
    else
      some (.obj [("router", .obj (crewRouterOut routerParsed rts tot)),
                  ("validation", .obj (crewValidation rts mainParsed)),
                  ("final", (crewFinal rts (crewValidation rts mainParsed) fileReport).1)],
            (crewFinal rts (crewValidation rts mainParsed) fileReport).2)))

/-- `run_crew_workflow` (`routes.py` 18–25): a normal return persists job
status `completed` with the result; an escaping exception persists
`failed`. -/
def run_crew_workflow (crewResult : Option (JVal × List String)) : String × Option JVal :=
  match crewResult with
  | some r => ("completed", some r.1)
  | none => ("failed", none)

theorem determine_some_calc (c : JVal) (rts : List String)
    (h : determine_report_types c = some rts) :
    ∃ tot, calculate_total_cash_amount c = some tot := by
  unfold determine_report_types at h
  cases hc : calculate_total_cash_amount c with
  | none => rw [hc] at h; simp at h
  | some tot => exact ⟨tot, rfl⟩

/-- Claim C4: whenever SAR is required and the validation sub-pipeline's
parsed output has a falsy (false or absent) `approval_flag`, the crew
returns normally with zero filings, the final payload's status is
`needs_review`, and the job is persisted as `completed`. -/
theorem claim_C4 : ∀ (td : JVal) (routerParsed mainParsed : List (String × JVal))
    (fileReport : String → JVal) (rts : List String),
    determine_report_types (normalize_case_data td) = some rts →
    rts.contains "SAR" = true →
    pyTruthy (lookupD mainParsed "approval_flag" JVal.null) = false →
    ((create_compliance_crew td routerParsed mainParsed fileReport).map
        (fun r => r.2) = some [] ∧
     (create_compliance_crew td routerParsed mainParsed fileReport).map
        (fun r => objGetD (objGetD r.1 "final" .null) "status" .null) =
          some (.str "needs_review") ∧
     (run_crew_workflow (create_compliance_crew td routerParsed mainParsed fileReport)).1 =
       "completed") := by
  intro td routerParsed mainParsed fileReport rts hdet hSAR happr
  obtain ⟨tot, hcal⟩ := determine_some_calc _ _ hdet
  have hne : rts.isEmpty = false := by
    cases rts with
    | nil => simp [List.contains] at hSAR
    | cons a t => rfl
  have hval : crewValidation rts mainParsed = mainParsed := by
    unfold crewValidation
    rw [if_pos hSAR]
  have hfin : crewFinal rts mainParsed fileReport =
      (.obj [("status", .str "needs_review"), ("validation_report", .obj mainParsed),
             ("message", .str "Report did not pass validation - human review required")],
       []) := by
    unfold crewFinal
    rw [happr]
    simp
  have hcrew : create_compliance_crew td routerParsed mainParsed fileReport =
      some (.obj [("router", .obj (crewRouterOut routerParsed rts tot)),
                  ("validation", .obj mainParsed),
                  ("final", .obj [("status", .str "needs_review"),
                                  ("validation_report", .obj mainParsed),
                                  ("message", .str "Report did not pass validation - human review required")])],
            []) := by
    unfold create_compliance_crew
    rw [hdet, hcal]
    simp only [Option.some_bind]
    rw [hne]
    simp only [Bool.false_eq_true, if_false]
    rw [hval, hfin]
  rw [hcrew]
  refine ⟨rfl, ?_, ?_⟩
  · rfl
  · unfold run_crew_workflow
    rfl

def c4ExampleCase : JVal :=
  .obj [("alert", .obj [("red_flags", .arr [.str "possible structuring detected"])])]

/-- Witness for C4: a SAR-only case whose validation payload carries
`approval_flag: false` completes with a `needs_review` final payload and
no filings. -/
theorem claim_C4_witness :
    (determine_report_types (normalize_case_data c4ExampleCase) = some ["SAR"]) ∧
    ((["SAR"] : List String).contains "SAR" = true) ∧
    (pyTruthy (lookupD [("approval_flag", JVal.bool false)] "approval_flag" JVal.null) = false) ∧
    ((create_compliance_crew c4ExampleCase [] [("approval_flag", JVal.bool false)]
        (fun _ => JVal.null)).map (fun r => r.2) = some [] ∧
     (create_compliance_crew c4ExampleCase [] [("approval_flag", JVal.bool false)]
        (fun _ => JVal.null)).map
        (fun r => objGetD (objGetD r.1 "final" .null) "status" .null) =
          some (.str "needs_review") ∧
     (run_crew_workflow (create_compliance_crew c4ExampleCase []
        [("approval_flag", JVal.bool false)] (fun _ => JVal.null))).1 = "completed") :=
  ⟨by decide, by decide, by decide,
   claim_C4 c4ExampleCase [] [("approval_flag", JVal.bool false)] (fun _ => JVal.null)
     ["SAR"] (by decide) (by decide) (by decide)⟩

/-! ## Field Mapping Engine (`field_mapper.py` lines 54–540)

`datetime.now()` in the two `_map_contact` methods is modelled by an
explicit `PyDate` parameter (its `%m`/`%d`/`%Y` renderings); everything
else in the mappers is a function of the case alone.  Sub-mapper raises
(string methods on truthy non-strings, `float()` on unparseable values,
`.get` on non-dicts, `join` over non-strings) propagate as `none` out of
`map_all_fields`; the per-`f`-dict mutation order inside a sub-mapper is
preserved, and a raise discards the whole call as in Python. -/

/-- The current date as used by the mappers (`datetime.now().strftime`). -/
structure PyDate where
  mm : String
  dd : String
  yyyy : String

/-- `x if isinstance(x, dict) else {}`. -/
def asObjOr (v : JVal) : JVal := if jIsObj v then v else .obj []

/-- `[tx for tx in txns if isinstance(tx, dict)] if isinstance(txns, list)
else []`. -/
def txnsOf (v : JVal) : List JVal :=
  match v with
  | .arr xs => xs.filter jIsObj
  | _ => []

/-- `(x or "").lower()`. -/
def asLower (v : JVal) : Option String :=
  match pyOr v (.str "") with
  | .str s => some (plower s)
  | _ => none

/-- `(x or "").strip()`. -/
def asStripped (v : JVal) : Option String :=
  match pyOr v (.str "") with
  | .str s => some (pstrip s)
  | _ => none

/-- The shared phone normalization (`field_mapper.py` 304–306, 323–325,
532–534): strip non-digits, drop a leading country code `1` from an
11-digit number. -/
def normalizePhoneDigits (phone : String) : String :=
  if (digitsOf phone).data.length = 11 && pstartsWith "1" (digitsOf phone) then
    ⟨(digitsOf phone).data.drop 1⟩
  else digitsOf phone

/-- `", ".join(xs)` over a list of values: raises unless all strings. -/
def pyJoinList (sep : String) (xs : List JVal) : Option String :=
  (xs.mapM asStr).map (String.intercalate sep)

def REGULATOR_MAP : List (String × String) :=
  [("FRB", "/0"), ("Federal Reserve", "/0"), ("FEDERAL RESERVE", "/0"),
   ("FDIC", "/1"), ("NCUA", "/2"), ("OCC", "/3"), ("OTS", "/4")]

def LE_AGENCY_MAP : List (String × String) :=
  [("DEA", "item40a"), ("FBI", "item40b"), ("IRS", "item40c"),
   ("Postal Inspection", "item40d"), ("Secret Service", "item40e"),
   ("U.S. Customs", "item40f"), ("Other Federal", "item40g"),
   ("State", "item40h"), ("Local", "item40i")]

def mapLookup (m : List (String × String)) (k : String) : Option String :=
  (m.find? (fun e => e.1 == k)).map (·.2)

/-- Dict lookup with a possibly non-string key (`LE_AGENCY_MAP.get(agency)`
where `agency` is case data): non-string keys never match. -/
def mapLookupJ (m : List (String × String)) (k : JVal) : Option String :=
  match k with
  | .str s => mapLookup m s
  | _ => none

/-- The state held by a constructed `SARFieldMapper` (`field_mapper.py`
79–92). -/
structure SARCtx where
  caseData : JVal
  inst : JVal
  subject : JVal
  activity : JVal
  signals : JVal
  le : JVal
  txns : List JVal

def SARFieldMapper_init (case_data : JVal) : SARCtx :=
  { caseData := normalize_case_data case_data
    inst := asObjOr (objGetD (normalize_case_data case_data) "institution" (.obj []))
    subject := asObjOr (objGetD (normalize_case_data case_data) "subject" (.obj []))
    activity := asObjOr (objGetD (normalize_case_data case_data)
      "SuspiciousActivityInformation" (.obj []))
    signals := asObjOr (objGetD (normalize_case_data case_data) "external_signals" (.obj []))
    le := asObjOr (objGetD
      (asObjOr (objGetD (normalize_case_data case_data) "external_signals" (.obj [])))
      "law_enforcement_contacted" (.obj []))
    txns := txnsOf (objGetD (normalize_case_data case_data) "transactions" (.arr [])) }

/-- `_collect_accounts` (`field_mapper.py` 136–145) and the identical
account loop of `CTRFieldMapper._map_transactions` (502–509): first
occurrence of each truthy origin/destination account, in order. -/
def collectAccounts (txns : List JVal) : List JVal :=
  txns.foldl (fun out tx =>
    ["origin_account", "destination_account"].foldl (fun out2 key =>
      if pyTruthy (objGetD tx key (.str "")) &&
          !(out2.contains (objGetD tx key (.str ""))) then
        out2 ++ [objGetD tx key (.str "")]
      else out2) out) []

def ACCT_FIELD_PAIRS : List (String × String) :=
  [("item14a", "item14a-1"), ("item14b", "item14b-1"),
   ("item14c", "item14c-1"), ("item14d", "item14d-1")]

/-- Lines 127–132: the first four accounts fill `item14a..d` with their
`-1` open-flags. -/
def fillAccounts (f : List (String × JVal)) (accounts : List JVal) :
    List (String × JVal) :=
  ((accounts.take 4).zip ACCT_FIELD_PAIRS).foldl
    (fun g e => dSet (dSet g e.2.1 e.1) e.2.2 (.str "/Yes")) f

/-- `SARFieldMapper._map_institution` (`field_mapper.py` 108–134).  The
possible raises (slicing / stripping truthy non-strings) are hoisted to
the front; on a raise the whole mapping fails, so the partial dict the
source mutates first is unobservable. -/
def sarMapInstitution (ctx : SARCtx) : Option (List (String × JVal)) :=
  (pySliceTo 2 (pyOr (objGetD ctx.inst "branch_state" (.str "")) (.str ""))).bind (fun state =>
  (asStripped (pyOr (objGetD ctx.inst "primary_federal_regulator" (.str "")) (.str ""))).map
    (fun regulator =>
    let city := pyOr (objGetD ctx.inst "branch_city" (.str "")) (.str "")
    let f := dSet [] "item2" (objGetD ctx.inst "name" (.str ""))
    let f := dSet f "item6" (objGetD ctx.inst "branch_city" (.str ""))
    let f := dSet f "item7" state
    let f := dSet f "item9" (.str (pstripChars [',', ' '] (pyStr city ++ ", " ++ pyStr state)))
    let f := dSet f "item10" city
    let f := dSet f "item11-1" state
    let f :=
      match mapLookup REGULATOR_MAP regulator with
      | some code => dSet f "item5" (.str code)
      | none =>
        match mapLookup REGULATOR_MAP (pupper regulator) with
        | some code => dSet f "item5" (.str code)
        | none => f
    fillAccounts f (collectAccounts ctx.txns)))

/-- `SARFieldMapper._split_individual_name` (`field_mapper.py` 170–180):
token-count heuristics over whitespace-collapsed names; returns
(first, middle, last). -/
def _split_individual_name (name : JVal) : Option (String × String × String) :=
  match pyOr name (.str "") with
  | .str s =>
    if String.intercalate " " (pyWords s) = "" then some ("", "", "")
    else
      match (String.intercalate " " (pyWords s)).splitOn " " with
      | [p] => some (p, "", p)
      | [p1, p2] => some (p1, "", p2)
      | parts => some (parts.headD "", String.intercalate " " ((parts.drop 1).dropLast),
          (parts.getLast?).getD "")
  | _ => none

/-- `SARFieldMapper._map_suspect` (`field_mapper.py` 147–168). -/
def sarMapSuspect (ctx : SARCtx) : Option (List (String × JVal)) :=
  (asLower (pyOr (objGetD ctx.subject "type" (.str "")) (.str ""))).bind (fun subject_type =>
  (if subject_type = "individual" then
      (_split_individual_name (pyOr (objGetD ctx.subject "name" (.str "")) (.str ""))).map
        (fun parsed =>
          dSet (dSet (dSet [] "item15" (.str parsed.2.2)) "item16" (.str parsed.1))
            "item17" (.str parsed.2.1))
    else
      some (dSet [] "item15" (pyOr (objGetD ctx.subject "name" (.str "")) (.str "")))).map
    (fun f =>
      dSet (dSet (dSet (dSet (dSet f
        "item23" (objGetD ctx.subject "country" (.str "US")))
        "item26" (objGetD ctx.subject "industry_or_occupation" (.str "")))
        "item28" (.str "/1")) "item30" (.str "/6")) "item31" (.str "/1")))

mutual

def jDepth : JVal → ℕ
  | .arr xs => jDepthList xs + 1
  | .null => 0
  | .bool _ => 0
  | .num _ => 0
  | .str _ => 0
  | .obj _ => 0

def jDepthList : List JVal → ℕ
  | [] => 0
  | v :: vs => max (jDepth v) (jDepthList vs)

end

/-- The class-level `SARFieldMapper._to_list` (`field_mapper.py` 237–255)
recurses on the *normalized* element, which is not structurally smaller;
since normalization preserves list depth, a structural fuel of
`jDepth v + 1` always suffices (this keeps the definition
kernel-evaluable). -/
def toListClsF : ℕ → JVal → List String
  | 0, _ => []
  | fuel + 1, v =>
    match v with
    | .null => []
    | .arr xs => xs.flatMap (fun item =>
        if inNoneFalseEmpty (_normalize_obj item) then []
        else
          match _normalize_obj item with
          | .arr ys => toListClsF fuel (.arr ys)
          | n => [pyStr n])
    | v2 =>
      if inNoneFalseEmpty (_normalize_obj v2) then []
      else [pyStr (_normalize_obj v2)]

def SARFieldMapper_to_list (v : JVal) : List String := toListClsF (jDepth v + 1) v

/-- `SARFieldMapper._has_items` (`field_mapper.py` 229–235). -/
def _has_items (v : JVal) : Bool :=
  match v with
  | .bool b => b
  | .num q => decide (q ≠ 0)
  | _ => decide (0 < (SARFieldMapper_to_list v).length)

/-- `SARFieldMapper._contains_case_insensitive` (`field_mapper.py`
257–262). -/
def _contains_case_insensitive (v : JVal) (needle : String) : Bool :=
  (SARFieldMapper_to_list v).any (fun item => containsSub (plower item) (plower needle))

/-- `SARFieldMapper._as_bool` (`field_mapper.py` 276–283): scalar
normalization then Python truthiness. -/
def _as_bool (v : JVal) : Bool := pyTruthy (_normalize_scalar v)

/-- `SARFieldMapper._apply_mmddyyyy` (`field_mapper.py` 264–274). -/
def _apply_mmddyyyy (v : JVal) (k1 k2 k3 : String) (f : List (String × JVal)) :
    Option (List (String × JVal)) :=
  (asStripped (pyOr v (.str ""))).map (fun text =>
    if text = "" then f
    else
      match text.splitOn "/" with
      | [a, b, c] => dSet (dSet (dSet f k1 (.str a)) k2 (.str b)) k3 (.str c)
      | _ => f)

def AMOUNT_FIELD_IDS : List String :=
  ["item34-1", "item34-2", "item34-3", "item34-4", "item34-5", "item34-6",
   "item34-7", "item34-8", "item34-9", "item34-10", "item34-11"]

/-- Lines 191–207: one digit of the 11-digit zero-padded amount per
sub-field (`pad11` guarantees at least 11 characters, so the zip covers
all eleven ids exactly as Python's indexing does). -/
def fillAmountDigits (f : List (String × JVal)) (digits : String) :
    List (String × JVal) :=
  (AMOUNT_FIELD_IDS.zip digits.data).foldl
    (fun g e => dSet g e.1 (.str ⟨[e.2]⟩)) f

/-- `SARFieldMapper._map_suspicious_activity` (`field_mapper.py`
182–227). -/
def sarMapActivity (ctx : SARCtx) : Option (List (String × JVal)) :=
  (pyDictGet (objGetD ctx.activity "27_DateOrDateRange" (.obj [])) "from" (.str "")).bind
    (fun fromV =>
  (pyDictGet (objGetD ctx.activity "27_DateOrDateRange" (.obj [])) "to" (.str "")).bind
    (fun toV =>
  (_apply_mmddyyyy fromV "item33-1" "item33-2" "item33-3" []).bind (fun f1 =>
  (_apply_mmddyyyy toV "item33-4" "item33-5" "item33-6" f1).bind (fun f2 =>
  (pyDictGet (objGetD ctx.activity "26_AmountInvolved" (.obj [])) "amount_usd" (.num 0)).bind
    (fun amountV =>
  (pyFloat (pyOr amountV (.num 0))).map (fun aq =>
    let f := fillAmountDigits f2 (pad11 (pyTrunc aq))
    let f := if _has_items (objGetD ctx.activity "29_Structuring" .null) then
        dSet f "item35a" (.str "/Yes") else f
    let f := if _has_items (objGetD ctx.activity "30_TerroristFinancing" .null) then
        dSet f "item35t" (.str "/Yes") else f
    let f := if _contains_case_insensitive (objGetD ctx.activity "31_Fraud" .null) "wire" then
        dSet f "item35r" (.str "/Yes") else f
    let f := if _has_items (objGetD ctx.activity "33_MoneyLaundering" .null) then
        dSet f "item35a" (.str "/Yes") else f
    let f := if _has_items (objGetD ctx.activity "38_MortgageFraud" .null) then
        dSet f "item35p" (.str "/Yes") else f
    let f := if _has_items (objGetD ctx.activity "35_OtherSuspiciousActivities" (.arr [])) then
        dSet (dSet f "item35s" (.str "/Yes")) "item35s-1"
          (.str (pyTake 100 (String.intercalate "; "
            (SARFieldMapper_to_list (objGetD ctx.activity "35_OtherSuspiciousActivities" (.arr []))))))
      else f
    dSet (dSet f "item38" (.str "/1")) "item39" (.str "/1")))))))

/-- `SARFieldMapper._map_law_enforcement` (`field_mapper.py` 285–311). -/
def sarMapLE (ctx : SARCtx) : Option (List (String × JVal)) :=
  if !(_as_bool (objGetD ctx.le "contacted" (.bool false))) then some []
  else
    (match mapLookupJ LE_AGENCY_MAP (pyOr (objGetD ctx.le "agency" JVal.null) (.str "")) with
     | some matched => some (dSet [] matched (JVal.str "/Yes"))
     | none =>
       if pyTruthy (pyOr (objGetD ctx.le "agency" JVal.null) (JVal.str "")) then
         (pySliceTo 80 (pyOr (objGetD ctx.le "agency" JVal.null) (JVal.str ""))).map (fun a80 =>
           dSet (dSet ([] : List (String × JVal)) "item40j" (JVal.str "/Yes")) "item40j-1" a80)
       else some []).bind (fun f =>
    (asStr (pyOr (objGetD ctx.le "phone" (.str "")) (.str ""))).map (fun phoneS =>
      let f := if pyTruthy (pyOr (objGetD ctx.le "contact_name" .null) (.str "")) then
          dSet f "item41" (pyOr (objGetD ctx.le "contact_name" .null) (.str ""))
        else f
      if 10 ≤ (normalizePhoneDigits phoneS).data.length then
        dSet (dSet f "item42-1" (.str ⟨(normalizePhoneDigits phoneS).data.take 3⟩))
          "item42-2" (.str ⟨((normalizePhoneDigits phoneS).data.take 10).drop 3⟩)
      else f))

/-- `SARFieldMapper._map_contact` without its trailing
`datetime.now()`-derived fields (`field_mapper.py` 313–329). -/
def sarMapContactPre (ctx : SARCtx) : Option (List (String × JVal)) :=
  (if pyTruthy (pyOr (objGetD ctx.inst "contact_officer" (.str "")) (.str "")) then
      (asStr (pyOr (objGetD ctx.inst "contact_officer" (.str "")) (.str ""))).map (fun s =>
        dSet (dSet [] "item46" (.str (pySplitOnce s " ").1))
          "item45" (.str ((pySplitOnce s " ").2.getD (pySplitOnce s " ").1)))
    else some []).bind (fun f =>
  (asStr (pyOr (objGetD ctx.inst "contact_phone" (.str "")) (.str ""))).map (fun phoneS =>
    let f := dSet f "item48" (.str "Compliance Officer")
    if 10 ≤ (normalizePhoneDigits phoneS).data.length then
      dSet (dSet f "item49-1" (.str ⟨(normalizePhoneDigits phoneS).data.take 3⟩))
        "item49-2" (.str ⟨((normalizePhoneDigits phoneS).data.take 10).drop 3⟩)
    else f))

/-- `SARFieldMapper._map_contact` (`field_mapper.py` 313–334): the
pre-date fields followed by the `item50-*` preparation-date fields from
`datetime.now()` (lines 330–333). -/
def sarMapContact (ctx : SARCtx) (now : PyDate) : Option (List (String × JVal)) :=
  (sarMapContactPre ctx).map (fun f =>
    dSet (dSet (dSet f "item50-1" (.str now.mm)) "item50-2" (.str now.dd))
      "item50-3" (.str now.yyyy))

/-- One transaction line of the synthesized narrative (`field_mapper.py`
376–388). -/
def txLineM (tx : JVal) : Option String :=
  (pyFloat (pyOr (objGetD tx "amount_usd" (.num 0)) (.num 0))).map (fun usd =>
    "  " ++ pyStr (objGetD tx "timestamp" (.str "")) ++ ": $" ++ fmtMoney usd ++
    " from " ++ pyStr (objGetD tx "origin_account" (.str "")) ++
    " to " ++ pyStr (objGetD tx "destination_account" (.str "")) ++
    (if pyTruthy (objGetD tx "location" (.str "")) then
      " | " ++ pyStr (objGetD tx "location" (.str "")) else "") ++
    (if pyTruthy (objGetD tx "notes" (.str "")) then
      " | " ++ pyStr (objGetD tx "notes" (.str "")) else ""))

def txLinesM (txns : List JVal) : Option (List String) :=
  if txns.isEmpty then some []
  else (txns.mapM txLineM).map (fun lines =>
    ("TRANSACTIONS (" ++ natStr txns.length ++ " total):") :: lines)

/-- The narrative-synthesis fallback of `SARFieldMapper._map_narrative`
(`field_mapper.py` 341–416): labeled blocks in a fixed order, joined by
blank lines, truncated to 4000 characters. -/
def sarNarrativeBlocks (ctx : SARCtx) : Option (List (String × JVal)) :=
  (if pyTruthy (objGetD ctx.subject "prior_sars" (.arr [])) then
      (pyJoin ", " (objGetD ctx.subject "prior_sars" (.arr []))).map
        (fun j => ["PRIOR SARS: " ++ j])
    else some []).bind (fun priorB =>
  (pyDictGet (objGetD ctx.activity "27_DateOrDateRange" (.obj [])) "from" .null).bind
    (fun fromV =>
  (pyDictGet (objGetD ctx.activity "27_DateOrDateRange" (.obj [])) "to" .null).bind
    (fun toV =>
  (pyDictGet (objGetD ctx.caseData "alert" (.obj [])) "red_flags" .null).bind (fun rf =>
  (pyDictGet (objGetD ctx.caseData "alert" (.obj [])) "trigger_reasons" .null).bind (fun tr =>
  (pyDictGet (objGetD ctx.activity "26_AmountInvolved" (.obj [])) "amount_usd" (.num 0)).bind
    (fun amountV =>
  (if pyTruthy amountV then
      (pyFloat amountV).map (fun q => ["TOTAL AMOUNT INVOLVED: $" ++ fmtMoney q])
    else some []).bind (fun amountB =>
  (txLinesM ctx.txns).bind (fun txB =>
  (pyDictGet (objGetD ctx.caseData "data_quality" (.obj [])) "notes" (.str "")).map (fun dq =>
    let line1 := "SUBJECT: " ++ pyStr (objGetD ctx.subject "name" (.str "Unknown")) ++
      (if pyTruthy (objGetD ctx.subject "industry_or_occupation" (.str "")) then
        ", " ++ pyStr (objGetD ctx.subject "industry_or_occupation" (.str "")) else "") ++
      (if pyTruthy (objGetD ctx.subject "country" (.str "")) then
        " (" ++ pyStr (objGetD ctx.subject "country" (.str "")) ++ ")" else "")
    let periodB := if pyTruthy fromV && pyTruthy toV then
        ["ACTIVITY PERIOD: " ++ pyStr fromV ++ " through " ++ pyStr toV] else []
    let flags := SARFieldMapper_to_list rf ++ SARFieldMapper_to_list tr
    let flagsB := if !flags.isEmpty then
        ["RED FLAGS DETECTED: " ++ String.intercalate "; " flags] else []
    let structB := if _has_items (objGetD ctx.activity "29_Structuring" .null) then
        ["STRUCTURING: " ++ String.intercalate "; "
          (SARFieldMapper_to_list (objGetD ctx.activity "29_Structuring" .null))] else []
    let mlB := if _has_items (objGetD ctx.activity "33_MoneyLaundering" .null) then
        ["MONEY LAUNDERING INDICATORS: " ++ String.intercalate "; "
          (SARFieldMapper_to_list (objGetD ctx.activity "33_MoneyLaundering" .null))] else []
    let fraudB := if _has_items (objGetD ctx.activity "31_Fraud" .null) then
        ["FRAUD: " ++ String.intercalate "; "
          (SARFieldMapper_to_list (objGetD ctx.activity "31_Fraud" .null))] else []
    let otherB := if _has_items (objGetD ctx.activity "35_OtherSuspiciousActivities" .null) then
        ["OTHER SUSPICIOUS ACTIVITY: " ++ String.intercalate "; "
          (SARFieldMapper_to_list (objGetD ctx.activity "35_OtherSuspiciousActivities" .null))]
      else []
    let dqB := if pyTruthy dq then ["NOTES: " ++ pyStr dq] else []
    let mediaB := if !(SARFieldMapper_to_list (objGetD ctx.signals "adverse_media" .null)).isEmpty
      then ["ADVERSE MEDIA: " ++ String.intercalate "; "
        (SARFieldMapper_to_list (objGetD ctx.signals "adverse_media" .null))] else []
    let blocks := [line1] ++ priorB ++ periodB ++ flagsB ++ amountB ++ txB ++
      structB ++ mlB ++ fraudB ++ otherB ++ dqB ++ mediaB
    [("item51", JVal.str (pyTake 4000 (String.intercalate "\n\n" blocks)))])))))))))

/-- `SARFieldMapper._map_narrative` (`field_mapper.py` 336–416): a
provided non-empty narrative string is used verbatim (truncated to 4000
characters), else the fallback synthesis. -/
def sarMapNarrative (ctx : SARCtx) : Option (List (String × JVal)) :=
  match _normalize_scalar (objGetD ctx.caseData "narrative" .null) with
  | .str s =>
    if s = "" then sarNarrativeBlocks ctx
    else some [("item51", .str (pyTake 4000 s))]
  | _ => sarNarrativeBlocks ctx

/-- The final dict comprehension of `SARFieldMapper.map_all_fields`
(`field_mapper.py` 102–106): drop `None`/empty values, stringify the
rest. -/
def finalizeSAR (m : List (String × JVal)) : List (String × String) :=
  (m.filter (fun e => !(e.2 == JVal.null) && !(e.2 == JVal.str ""))).map
    (fun e => (e.1, pyStr e.2))

/-- `SARFieldMapper.map_all_fields` (`field_mapper.py` 94–106). -/
def SARFieldMapper_map_all_fields (case_data : JVal) (now : PyDate) :
    Option (List (String × String)) :=
  (sarMapInstitution (SARFieldMapper_init case_data)).bind (fun f1 =>
  (sarMapSuspect (SARFieldMapper_init case_data)).bind (fun f2 =>
  (sarMapActivity (SARFieldMapper_init case_data)).bind (fun f3 =>
  (sarMapLE (SARFieldMapper_init case_data)).bind (fun f4 =>
  (sarMapContact (SARFieldMapper_init case_data) now).bind (fun f5 =>
  (sarMapNarrative (SARFieldMapper_init case_data)).bind (fun f6 =>
    some (finalizeSAR
      (dUpdate (dUpdate (dUpdate (dUpdate (dUpdate (dUpdate [] f1) f2) f3) f4) f5) f6))))))))

/-- `CTRFieldMapper.DEFAULT_FIELD_MAP` (`field_mapper.py` 424–437). -/
def CTR_DEFAULT_FIELD_MAP : List (String × JVal) :=
  [("institution_name", .str "item-1"), ("institution_ein", .str "item-2"),
   ("institution_address", .str "item-3"), ("institution_city_state", .str "item-4"),
   ("conductor_name", .str "item-5"), ("conductor_country", .str "item-6"),
   ("total_cash_amount", .str "item-7"), ("prepared_date", .str "item-8"),
   ("contact_name", .str "text1"), ("contact_phone", .str "text2"),
   ("account_numbers", .str "text3"), ("transaction_summary", .str "text4")]

/-- Lines 450–454: the defaults merged under any case-supplied
`ctr_field_map` overrides (`{**DEFAULT, **overrides}`). -/
def ctrFieldMapOf (c : JVal) : List (String × JVal) :=
  match objGetD c "ctr_field_map" (.obj []) with
  | .obj ov => dUpdate CTR_DEFAULT_FIELD_MAP ov
  | _ => CTR_DEFAULT_FIELD_MAP

/-- The state held by a constructed `CTRFieldMapper` (`field_mapper.py`
439–454). -/
structure CTRCtx where
  caseData : JVal
  inst : JVal
  subject : JVal
  activity : JVal
  txns : List JVal
  field_map : List (String × JVal)

def CTRFieldMapper_init (case_data : JVal) : CTRCtx :=
  { caseData := normalize_case_data case_data
    inst := asObjOr (objGetD (normalize_case_data case_data) "institution" (.obj []))
    subject := asObjOr (objGetD (normalize_case_data case_data) "subject" (.obj []))
    activity := asObjOr (objGetD (normalize_case_data case_data)
      "SuspiciousActivityInformation" (.obj []))
    txns := txnsOf (objGetD (normalize_case_data case_data) "transactions" (.arr []))
    field_map := ctrFieldMapOf (normalize_case_data case_data) }

/-- `CTRFieldMapper._put` (`field_mapper.py` 468–471): resolve the
logical key through the field map (whose overridden values are used
as-is and may be non-strings), skip falsy ids and empty/None values,
stringify the value. -/
def ctrPut (fmap : List (String × JVal)) (out : List (JVal × String))
    (logical_key : String) (value : JVal) : List (JVal × String) :=
  if pyTruthy (lookupD fmap logical_key JVal.null) &&
      !(value == JVal.str "" || value == JVal.null) then
    dSet out (lookupD fmap logical_key JVal.null) (pyStr value)
  else out

/-- `CTRFieldMapper._map_institution` (`field_mapper.py` 473–486). -/
def ctrMapInstitution (ctx : CTRCtx) : Option (List (JVal × String)) :=
  (pySliceTo 2 (pyOr (objGetD ctx.inst "branch_state" (.str "")) (.str ""))).map (fun state =>
    ctrPut ctx.field_map
      (ctrPut ctx.field_map
        (ctrPut ctx.field_map
          (ctrPut ctx.field_map [] "institution_name" (objGetD ctx.inst "name" (.str "")))
          "institution_ein" (objGetD ctx.inst "ein" (.str "")))
        "institution_address" (objGetD ctx.inst "address" (.str "")))
      "institution_city_state"
      (.str (pstripChars [',', ' ']
        (pyStr (objGetD ctx.inst "branch_city" (.str "")) ++ ", " ++ pyStr state))))

/-- `CTRFieldMapper._map_conductor` (`field_mapper.py` 488–494). -/
def ctrMapConductor (ctx : CTRCtx) : List (JVal × String) :=
  ctrPut ctx.field_map
    (ctrPut ctx.field_map [] "conductor_name"
      (pyOr (objGetD ctx.subject "name" (.str "")) (.str "Unknown")))
    "conductor_country" (objGetD ctx.subject "country" (.str "US"))

/-- One line of the transaction summary (`field_mapper.py` 513–519). -/
def ctrTxLine (tx : JVal) : Option String :=
  (pyFloat (pyOr (objGetD tx "amount_usd" (.num 0)) (.num 0))).map (fun amt =>
    pstrip (pyStr (objGetD tx "timestamp" (.str "")) ++ " $" ++ fmtMoney amt ++ " " ++
      pyStr (objGetD tx "instrument_type" (.str "")) ++ " " ++
      pyStr (objGetD tx "product_type" (.str ""))))

/-- `CTRFieldMapper._map_transactions` (`field_mapper.py` 496–523). -/
def ctrMapTransactions (ctx : CTRCtx) : Option (List (JVal × String)) :=
  (calculate_total_cash_amount ctx.caseData).bind (fun total_cash =>
  (if (collectAccounts ctx.txns).isEmpty then
      some (if pyTruthy (.num total_cash) then
        ctrPut ctx.field_map [] "total_cash_amount" (.str (fmtMoney total_cash))
      else [])
    else
      (pyJoinList ", " ((collectAccounts ctx.txns).take 4)).map (fun joined =>
        ctrPut ctx.field_map
          (if pyTruthy (.num total_cash) then
            ctrPut ctx.field_map [] "total_cash_amount" (.str (fmtMoney total_cash))
          else [])
          "account_numbers" (.str joined))).bind (fun f2 =>
  ((ctx.txns.take 6).mapM ctrTxLine).map (fun lines =>
    if lines.isEmpty then f2
    else ctrPut ctx.field_map f2 "transaction_summary"
      (.str (pyTake 500 (String.intercalate " | " lines))))))

/-- `CTRFieldMapper._map_contact` without its trailing
`datetime.now()`-derived field (`field_mapper.py` 525–536). -/
def ctrMapContactPre (ctx : CTRCtx) : Option (List (JVal × String)) :=
  (asStr (pyOr (objGetD ctx.inst "contact_phone" (.str "")) (.str ""))).map (fun phoneS =>
    if 10 ≤ (normalizePhoneDigits phoneS).data.length then
      ctrPut ctx.field_map
        (if pyTruthy (objGetD ctx.inst "contact_officer" (.str "")) then
          ctrPut ctx.field_map [] "contact_name" (objGetD ctx.inst "contact_officer" (.str ""))
        else [])
        "contact_phone"
        (.str ((⟨(normalizePhoneDigits phoneS).data.take 3⟩ : String) ++ "-" ++
          (⟨((normalizePhoneDigits phoneS).data.take 10).drop 3⟩ : String)))
    else
      (if pyTruthy (objGetD ctx.inst "contact_officer" (.str "")) then
        ctrPut ctx.field_map [] "contact_name" (objGetD ctx.inst "contact_officer" (.str ""))
      else []))

/-- `CTRFieldMapper._map_contact` (`field_mapper.py` 525–540): the
pre-date fields followed by the `prepared_date` field from
`datetime.now().strftime("%m/%d/%Y")` (lines 538–539). -/
def ctrMapContact (ctx : CTRCtx) (now : PyDate) : Option (List (JVal × String)) :=
  (ctrMapContactPre ctx).map (fun f =>
    ctrPut ctx.field_map f "prepared_date"
      (.str (now.mm ++ "/" ++ now.dd ++ "/" ++ now.yyyy)))

/-- The final dict comprehension of `CTRFieldMapper.map_all_fields`
(`field_mapper.py` 462–466): keep truthy keys and non-empty values
(values are already strings from `_put`). -/
def finalizeCTR (m : List (JVal × String)) : List (JVal × String) :=
  m.filter (fun e => pyTruthy e.1 && !(e.2 == ""))

/-- `CTRFieldMapper.map_all_fields` (`field_mapper.py` 456–466). -/
def CTRFieldMapper_map_all_fields (case_data : JVal) (now : PyDate) :
    Option (List (JVal × String)) :=
  (ctrMapInstitution (CTRFieldMapper_init case_data)).bind (fun f1 =>
  (ctrMapTransactions (CTRFieldMapper_init case_data)).bind (fun f3 =>
  (ctrMapContact (CTRFieldMapper_init case_data) now).bind (fun f4 =>
    some (finalizeCTR
      (dUpdate (dUpdate (dUpdate (dUpdate [] f1)
        (ctrMapConductor (CTRFieldMapper_init case_data))) f3) f4)))))

/-- A case whose `ctr_field_map` override maps `institution_name` to the
number `5`. -/
def c8OverrideCase : JVal :=
  .obj [("ctr_field_map", .obj [("institution_name", .num 5)]),
        ("institution", .obj [("name", .str "Acme")])]

/-- Counterexample for C8 as stated: with a case-supplied `ctr_field_map`
override whose value is the number `5`, the CTR field map contains a
non-string key (the override id is used as-is by `_put`). -/
theorem claim_C8_counterexample :
    ((CTRFieldMapper_map_all_fields c8OverrideCase ⟨"01", "01", "2024"⟩).getD []).all
      (fun e => jIsStr e.1) = false := by decide

/-- Counterexample for C9 as stated: two runs of the CTR mapper on the
same (empty) case at different current dates produce different field
maps — the `prepared_date` entry tracks `datetime.now()`. -/
theorem claim_C9_counterexample :
    ¬(CTRFieldMapper_map_all_fields (JVal.obj []) ⟨"01", "01", "2024"⟩ =
      CTRFieldMapper_map_all_fields (JVal.obj []) ⟨"02", "02", "2024"⟩) := by decide

/-! ### Dict lemmas for the mapper invariants -/

instance : LawfulBEq JVal where
  eq_of_beq h := of_decide_eq_true h
  rfl := decide_eq_true rfl

theorem dUpdate_nil {κ α : Type} [BEq κ] (m : List (κ × α)) : dUpdate m [] = m := rfl

theorem dUpdate_cons {κ α : Type} [BEq κ] (m : List (κ × α)) (e : κ × α)
    (rest : List (κ × α)) : dUpdate m (e :: rest) = dUpdate (dSet m e.1 e.2) rest := rfl

theorem dSet_keys {κ α : Type} [BEq κ] {P : κ → Bool} {m : List (κ × α)} {k : κ} {v : α}
    (hm : ∀ e ∈ m, P e.1 = true) (hk : P k = true) :
    ∀ e ∈ dSet m k v, P e.1 = true := by
  intro e he
  unfold dSet at he
  by_cases hany : m.any (fun e2 => e2.1 == k) = true
  · rw [if_pos hany] at he
    obtain ⟨e0, he0, heq⟩ := List.mem_map.mp he
    by_cases h0 : (e0.1 == k) = true
    · rw [if_pos h0] at heq
      rw [← heq]
      exact hk
    · rw [if_neg h0] at heq
      rw [← heq]
      exact hm e0 he0
  · rw [if_neg hany] at he
    rcases List.mem_append.mp he with h | h
    · exact hm e h
    · rw [List.mem_singleton.mp h]
      exact hk

theorem dUpdate_keys {κ α : Type} [BEq κ] {P : κ → Bool} :
    ∀ (sub m : List (κ × α)),
    (∀ e ∈ m, P e.1 = true) → (∀ e ∈ sub, P e.1 = true) →
    ∀ e ∈ dUpdate m sub, P e.1 = true
  | [], m, hm, _ => hm
  | e0 :: rest, m, hm, hs => by
    rw [dUpdate_cons]
    exact dUpdate_keys rest _ (dSet_keys hm (hs e0 (by simp)))
      (fun e he => hs e (by simp [he]))

theorem dSet_vals {κ α : Type} [BEq κ] {m : List (κ × α)} {k : κ} {v : α} :
    ∀ w ∈ (dSet m k v).map (·.2), w ∈ m.map (·.2) ∨ w = v := by
  intro w hw
  unfold dSet at hw
  by_cases hany : m.any (fun e2 => e2.1 == k) = true
  · rw [if_pos hany] at hw
    rw [List.map_map] at hw
    obtain ⟨e0, he0, heq⟩ := List.mem_map.mp hw
    by_cases h0 : (e0.1 == k) = true
    · simp only [Function.comp, if_pos h0] at heq
      exact Or.inr heq.symm
    · simp only [Function.comp, if_neg h0] at heq
      exact Or.inl (heq ▸ List.mem_map.mpr ⟨e0, he0, rfl⟩)
  · rw [if_neg hany, List.map_append] at hw
    rcases List.mem_append.mp hw with h | h
    · exact Or.inl h
    · simp at h
      exact Or.inr h

theorem dUpdate_vals {κ α : Type} [BEq κ] :
    ∀ (sub m : List (κ × α)) (w : α), w ∈ (dUpdate m sub).map (·.2) →
    w ∈ m.map (·.2) ∨ w ∈ sub.map (·.2)
  | [], _, _, h => Or.inl h
  | e :: rest, m, w, h => by
    rw [dUpdate_cons] at h
    rcases dUpdate_vals rest _ w h with h2 | h2
    · rcases dSet_vals w h2 with h3 | h3
      · exact Or.inl h3
      · exact Or.inr (by simp [h3])
    · exact Or.inr (by simp [h2])

theorem lookupD_eq_default_or_mem {κ α : Type} [BEq κ] (m : List (κ × α)) (k : κ) (d : α) :
    lookupD m k d = d ∨ lookupD m k d ∈ m.map (·.2) := by
  unfold lookupD
  cases hf : m.find? (fun e => e.1 == k) with
  | none => exact Or.inl rfl
  | some e => exact Or.inr (List.mem_map.mpr ⟨e, List.mem_of_find?_eq_some hf, rfl⟩)

theorem filter_replace_of_mem {κ α : Type} [BEq κ] [LawfulBEq κ]
    {ks : List κ} {k : κ} {v : α} (m : List (κ × α)) (hk : k ∈ ks) :
    (m.map (fun e => if e.1 == k then (k, v) else e)).filter (fun e => !(ks.contains e.1)) =
      m.filter (fun e => !(ks.contains e.1)) := by
  induction m with
  | nil => rfl
  | cons e t ih =>
    have ih2 := ih
    simp at ih2
    by_cases he : (e.1 == k) = true
    · have hek : e.1 = k := eq_of_beq he
      simp only [List.map_cons, if_pos he, List.filter_cons, hek]
      simp [hk, ih2]
    · simp only [List.map_cons, if_neg he, List.filter_cons]
      by_cases hc : e.1 ∈ ks <;> simp [hc, ih2]

theorem dErase_dSet_mem {κ α : Type} [BEq κ] [LawfulBEq κ]
    {ks : List κ} {m : List (κ × α)} {k : κ} {v : α} (hk : k ∈ ks) :
    dErase ks (dSet m k v) = dErase ks m := by
  unfold dSet dErase
  by_cases hany : m.any (fun e2 => e2.1 == k) = true
  · rw [if_pos hany]
    exact filter_replace_of_mem m hk
  · rw [if_neg hany, List.filter_append]
    simp [hk]

theorem filter_replace_comm {κ α : Type} [BEq κ] [LawfulBEq κ]
    {ks : List κ} {k : κ} {v : α} (hk : k ∉ ks) (m : List (κ × α)) :
    (m.map (fun e => if e.1 == k then (k, v) else e)).filter (fun e => !(ks.contains e.1)) =
      (m.filter (fun e => !(ks.contains e.1))).map
        (fun e => if e.1 == k then (k, v) else e) := by
  induction m with
  | nil => rfl
  | cons e t ih =>
    have ih2 := ih
    simp at ih2
    by_cases he : (e.1 == k) = true
    · have hek : e.1 = k := eq_of_beq he
      simp only [List.map_cons, if_pos he, List.filter_cons, hek]
      simp [hk, ih2, he]
    · simp only [List.map_cons, if_neg he, List.filter_cons]
      by_cases hc : e.1 ∈ ks <;> simp [hc, ih2, he]

theorem dErase_dSet_not_mem {κ α : Type} [BEq κ] [LawfulBEq κ]
    {ks : List κ} {m : List (κ × α)} {k : κ} {v : α} (hk : k ∉ ks) :
    dErase ks (dSet m k v) = dSet (dErase ks m) k v := by
  unfold dSet dErase
  by_cases hany : m.any (fun e2 => e2.1 == k) = true
  · rw [if_pos hany]
    have hany2 : (m.filter (fun e => !(ks.contains e.1))).any (fun e2 => e2.1 == k) = true := by
      obtain ⟨e, he, hek⟩ := List.any_eq_true.mp hany
      apply List.any_eq_true.mpr
      refine ⟨e, List.mem_filter.mpr ⟨he, ?_⟩, hek⟩
      have hek2 : e.1 = k := eq_of_beq hek
      simp [hek2, hk]
    rw [if_pos hany2]
    exact filter_replace_comm hk m
  · rw [if_neg hany]
    have hany2 : (m.filter (fun e => !(ks.contains e.1))).any (fun e2 => e2.1 == k) = false := by
      by_contra hcon
      rw [Bool.not_eq_false] at hcon
      obtain ⟨e, he, hek⟩ := List.any_eq_true.mp hcon
      exact hany (List.any_eq_true.mpr ⟨e, (List.mem_filter.mp he).1, hek⟩)
    rw [if_neg (by rw [hany2]; exact Bool.false_ne_true), List.filter_append]
    simp [hk]

theorem dErase_dUpdate {κ α : Type} [BEq κ] [LawfulBEq κ] (ks : List κ) :
    ∀ (sub m : List (κ × α)),
    dErase ks (dUpdate m sub) = dUpdate (dErase ks m) (dErase ks sub)
  | [], m => rfl
  | e :: rest, m => by
    rw [dUpdate_cons]
    by_cases hk : e.1 ∈ ks
    · have h1 : dErase ks (e :: rest) = dErase ks rest := by simp [dErase, hk]
      rw [dErase_dUpdate ks rest (dSet m e.1 e.2), dErase_dSet_mem hk, h1]
    · have h1 : dErase ks (e :: rest) = e :: dErase ks rest := by simp [dErase, hk]
      rw [dErase_dUpdate ks rest (dSet m e.1 e.2), dErase_dSet_not_mem hk, h1,
        dUpdate_cons]

/-- Erasing keys drops a row whose key is listed. -/
theorem dErase_cons_hit {κ α : Type} [BEq κ] {ks : List κ} {e : κ × α}
    (l : List (κ × α)) (h : ks.contains e.1 = true) :
    dErase ks (e :: l) = dErase ks l := by
  simp [dErase, List.filter_cons, h]

/-- Erasing keys keeps a row whose key is not listed. -/
theorem dErase_cons_miss {κ α : Type} [BEq κ] {ks : List κ} {e : κ × α}
    (l : List (κ × α)) (h : ks.contains e.1 = false) :
    dErase ks (e :: l) = e :: dErase ks l := by
  simp [dErase, List.filter_cons, h]

/-- Filtering by a row predicate commutes with erasing keys. -/
theorem dErase_filter {κ α : Type} [BEq κ] (ks : List κ) (p : κ × α → Bool)
    (m : List (κ × α)) : dErase ks (m.filter p) = (dErase ks m).filter p := by
  induction m with
  | nil => rfl
  | cons e t ih =>
    by_cases hp : p e = true <;> by_cases hc : ks.contains e.1 = true
    · rw [List.filter_cons, if_pos hp, dErase_cons_hit _ hc, dErase_cons_hit _ hc, ih]
    · have hc2 : ks.contains e.1 = false := by simpa using hc
      rw [List.filter_cons, if_pos hp, dErase_cons_miss _ hc2, dErase_cons_miss _ hc2,
        List.filter_cons, if_pos hp, ih]
    · rw [List.filter_cons, if_neg hp, dErase_cons_hit _ hc, ih]
    · have hc2 : ks.contains e.1 = false := by simpa using hc
      rw [List.filter_cons, if_neg hp, dErase_cons_miss _ hc2,
        List.filter_cons, if_neg hp, ih]

/-- Mapping a key-preserving row function commutes with erasing keys. -/
theorem dErase_map_keep {κ α β : Type} [BEq κ] (ks : List κ) (g : α → β)
    (m : List (κ × α)) :
    dErase ks (m.map (fun e => (e.1, g e.2))) =
      (dErase ks m).map (fun e => (e.1, g e.2)) := by
  induction m with
  | nil => rfl
  | cons e t ih =>
    by_cases hc : ks.contains e.1 = true
    · rw [List.map_cons, @dErase_cons_hit κ β _ ks (e.1, g e.2) _ hc,
        dErase_cons_hit _ hc, ih]
    · have hc2 : ks.contains e.1 = false := by simpa using hc
      rw [List.map_cons, @dErase_cons_miss κ β _ ks (e.1, g e.2) _ hc2,
        dErase_cons_miss _ hc2, List.map_cons, ih]

theorem dErase_finalizeSAR (ks : List String) (m : List (String × JVal)) :
    dErase ks (finalizeSAR m) = finalizeSAR (dErase ks m) := by
  unfold finalizeSAR
  rw [dErase_map_keep, dErase_filter]

theorem dErase_finalizeCTR (ks : List JVal) (m : List (JVal × String)) :
    dErase ks (finalizeCTR m) = finalizeCTR (dErase ks m) := by
  unfold finalizeCTR
  rw [dErase_filter]

/-- The SAR preparation-date field ids written by `_map_contact` from
`datetime.now()` (`field_mapper.py` 330–333). -/
def SAR_DATE_FIELD_IDS : List String := ["item50-1", "item50-2", "item50-3"]

/-- Project a SAR field map onto its date-independent part. -/
def eraseSarDates (m : List (String × String)) : List (String × String) :=
  dErase SAR_DATE_FIELD_IDS m

/-- The pdf field id the CTR `prepared_date` logical key resolves to. -/
def ctrPreparedDateKey (c : JVal) : JVal :=
  lookupD (ctrFieldMapOf (normalize_case_data c)) "prepared_date" JVal.null

/-- Project a CTR field map onto its date-independent part. -/
def eraseCtrPrepared (c : JVal) (m : List (JVal × String)) : List (JVal × String) :=
  dErase [ctrPreparedDateKey c] m

theorem sar_contact_erase (f : List (String × JVal)) (d : PyDate) :
    dErase SAR_DATE_FIELD_IDS
      (dSet (dSet (dSet f "item50-1" (.str d.mm)) "item50-2" (.str d.dd))
        "item50-3" (.str d.yyyy)) = dErase SAR_DATE_FIELD_IDS f := by
  rw [dErase_dSet_mem (by decide), dErase_dSet_mem (by decide),
    dErase_dSet_mem (by decide)]

theorem ctr_contact_erase (c : JVal) (f : List (JVal × String)) (v : JVal) :
    dErase [ctrPreparedDateKey c]
      (ctrPut (CTRFieldMapper_init c).field_map f "prepared_date" v) =
    dErase [ctrPreparedDateKey c] f := by
  unfold ctrPut
  by_cases hc : (pyTruthy (lookupD (CTRFieldMapper_init c).field_map "prepared_date"
      JVal.null) && !(v == JVal.str "" || v == JVal.null)) = true
  · rw [if_pos hc]
    exact dErase_dSet_mem (List.mem_singleton.mpr rfl)
  · rw [if_neg hc]

/-- Claim C9 (amended): the mappers are deterministic in the case input
up to the preparation-date fields sourced from `datetime.now()` — erasing
the SAR `item50-1/2/3` fields, respectively the CTR field that
`prepared_date` resolves to, runs at any two dates agree exactly. -/
theorem claim_C9_amended (c : JVal) (d₁ d₂ : PyDate) :
    (SARFieldMapper_map_all_fields c d₁).map eraseSarDates =
      (SARFieldMapper_map_all_fields c d₂).map eraseSarDates ∧
    (CTRFieldMapper_map_all_fields c d₁).map (eraseCtrPrepared c) =
      (CTRFieldMapper_map_all_fields c d₂).map (eraseCtrPrepared c) := by
  constructor
  · unfold SARFieldMapper_map_all_fields sarMapContact
    cases h1 : sarMapInstitution (SARFieldMapper_init c) <;>
    cases h2 : sarMapSuspect (SARFieldMapper_init c) <;>
    cases h3 : sarMapActivity (SARFieldMapper_init c) <;>
    cases h4 : sarMapLE (SARFieldMapper_init c) <;>
    cases h5 : sarMapContactPre (SARFieldMapper_init c) <;>
    cases h6 : sarMapNarrative (SARFieldMapper_init c) <;>
      simp [eraseSarDates, dErase_finalizeSAR, dErase_dUpdate, sar_contact_erase]
  · unfold CTRFieldMapper_map_all_fields ctrMapContact
    cases g1 : ctrMapInstitution (CTRFieldMapper_init c) <;>
    cases g3 : ctrMapTransactions (CTRFieldMapper_init c) <;>
    cases g4 : ctrMapContactPre (CTRFieldMapper_init c) <;>
      simp [eraseCtrPrepared, dErase_finalizeCTR, dErase_dUpdate, ctr_contact_erase]

/-! ### Nonempty rendering lemmas for C8 -/

theorem natStrAux_ne_nil (fuel n : ℕ) : natStrAux (fuel + 1) n ≠ [] := by
  unfold natStrAux
  by_cases h : n < 10
  · simp [h]
  · simp [h]

theorem string_eq_empty_of_data (a : String) (ha : a.data = []) : a = "" := by
  cases a
  simp at ha
  rw [ha]

theorem string_ne_empty_of_data (s : String) (h : s.data ≠ []) : s ≠ "" := by
  intro hc
  apply h
  rw [hc]

theorem append_ne_empty_left (a b : String) (h : a ≠ "") : a ++ b ≠ "" := by
  intro hc
  apply h
  have hd := congrArg String.data hc
  rw [String.data_append] at hd
  exact string_eq_empty_of_data a (List.append_eq_nil.mp hd).1

theorem natStr_ne_empty (n : ℕ) : natStr n ≠ "" :=
  string_ne_empty_of_data _ (natStrAux_ne_nil n n)

theorem intStr_ne_empty (i : ℤ) : intStr i ≠ "" := by
  unfold intStr
  by_cases h : i < 0
  · rw [if_pos h]
    exact append_ne_empty_left _ _ (by decide)
  · rw [if_neg h]
    exact natStr_ne_empty _

theorem numRepr_ne_empty (q : ℚ) : numRepr q ≠ "" := by
  unfold numRepr
  by_cases h : q.den = 1
  · rw [if_pos h]
    exact intStr_ne_empty _
  · rw [if_neg h]
    exact append_ne_empty_left _ _ (append_ne_empty_left _ _ (intStr_ne_empty _))

/-- `str(v)` of a non-empty-string value is never the empty string. -/
theorem pyStr_ne_empty (v : JVal) (h1 : (v == JVal.str "") = false) : pyStr v ≠ "" := by
  cases v with
  | null => decide
  | bool b => cases b <;> decide
  | num q =>
    show numRepr q ≠ ""
    exact numRepr_ne_empty q
  | str s =>
    intro hc
    rw [show pyStr (JVal.str s) = s from rfl] at hc
    rw [hc] at h1
    simp at h1
  | arr xs =>
    show ("[" ++ String.intercalate ", " (pyReprList xs) ++ "]") ≠ ""
    exact append_ne_empty_left _ _ (append_ne_empty_left _ _ (by decide))
  | obj kvs =>
    show ("\x7b" ++ String.intercalate ", " (pyReprObj kvs) ++ "\x7d") ≠ ""
    exact append_ne_empty_left _ _ (append_ne_empty_left _ _ (by decide))

/-- Every value surviving the final SAR dict comprehension is a
non-empty string. -/
theorem finalizeSAR_vals (m : List (String × JVal)) :
    ∀ e ∈ finalizeSAR m, (e.2 == "") = false := by
  intro e he
  unfold finalizeSAR at he
  obtain ⟨e0, he0, heq⟩ := List.mem_map.mp he
  have hf := (List.mem_filter.mp he0).2
  have h2 : (e0.2 == JVal.str "") = false := by
    cases h : e0.2 == JVal.str ""
    · rfl
    · rw [h] at hf
      simp at hf
  rw [← heq]
  show (pyStr e0.2 == "") = false
  exact beq_eq_false_iff_ne.mpr (pyStr_ne_empty e0.2 h2)

/-- `SARFieldMapper.map_all_fields` either raises or returns the final
comprehension of some accumulated map. -/
theorem sar_map_shape (c : JVal) (now : PyDate) :
    SARFieldMapper_map_all_fields c now = none ∨
    ∃ m, SARFieldMapper_map_all_fields c now = some (finalizeSAR m) := by
  unfold SARFieldMapper_map_all_fields
  cases h1 : sarMapInstitution (SARFieldMapper_init c) <;>
  cases h2 : sarMapSuspect (SARFieldMapper_init c) <;>
  cases h3 : sarMapActivity (SARFieldMapper_init c) <;>
  cases h4 : sarMapLE (SARFieldMapper_init c) <;>
  cases h5 : sarMapContact (SARFieldMapper_init c) now <;>
  cases h6 : sarMapNarrative (SARFieldMapper_init c) <;>
    first
      | exact Or.inl rfl
      | exact Or.inr ⟨_, rfl⟩

/-! ### CTR key provenance for C8 -/

/-- The values of a case-supplied `ctr_field_map` override object. -/
def ctrOverrideValues (c : JVal) : List JVal :=
  match objGetD (normalize_case_data c) "ctr_field_map" (.obj []) with
  | .obj ov => ov.map (fun e => e.2)
  | _ => []

/-- A CTR output key is acceptable when it is a string or one of the
case-supplied override ids (used as-is by `_put`). -/
def ctrKeyOK (c : JVal) (k : JVal) : Bool :=
  jIsStr k || (ctrOverrideValues c).contains k

theorem ctr_default_vals_str :
    ∀ w ∈ CTR_DEFAULT_FIELD_MAP.map (fun e => e.2), jIsStr w = true := by decide

theorem ctr_fmap_vals_ok (c : JVal) :
    ∀ w ∈ (ctrFieldMapOf (normalize_case_data c)).map (fun e => e.2),
      ctrKeyOK c w = true := by
  intro w hw
  unfold ctrKeyOK ctrOverrideValues
  unfold ctrFieldMapOf at hw
  cases hov : objGetD (normalize_case_data c) "ctr_field_map" (.obj [])
  case obj ov =>
    rw [hov] at hw
    rcases dUpdate_vals ov CTR_DEFAULT_FIELD_MAP w hw with h | h
    · simp [ctr_default_vals_str w h]
    · simp [h]
  all_goals
    rw [hov] at hw
    simp [ctr_default_vals_str w hw]

theorem ctrPut_keys (c : JVal) (out : List (JVal × String)) (lk : String) (v : JVal)
    (hout : ∀ e ∈ out, ctrKeyOK c e.1 = true) :
    ∀ e ∈ ctrPut (CTRFieldMapper_init c).field_map out lk v, ctrKeyOK c e.1 = true := by
  unfold ctrPut
  by_cases hcnd : (pyTruthy (lookupD (CTRFieldMapper_init c).field_map lk JVal.null) &&
      !(v == JVal.str "" || v == JVal.null)) = true
  · rw [if_pos hcnd]
    apply dSet_keys hout
    rcases lookupD_eq_default_or_mem (CTRFieldMapper_init c).field_map lk JVal.null with h | h
    · rw [h] at hcnd
      simp [pyTruthy] at hcnd
    · rw [show (CTRFieldMapper_init c).field_map =
          ctrFieldMapOf (normalize_case_data c) from rfl] at h
      exact ctr_fmap_vals_ok c _ h
  · rw [if_neg hcnd]
    exact hout

theorem ctrMapInstitution_keys (c : JVal) (f : List (JVal × String))
    (h : ctrMapInstitution (CTRFieldMapper_init c) = some f) :
    ∀ e ∈ f, ctrKeyOK c e.1 = true := by
  unfold ctrMapInstitution at h
  cases hs : pySliceTo 2 (pyOr (objGetD (CTRFieldMapper_init c).inst "branch_state"
      (.str "")) (.str "")) with
  | none =>
    rw [hs] at h
    exact absurd h (by simp)
  | some state =>
    rw [hs] at h
    simp only [Option.map_some'] at h
    rw [← Option.some.inj h]
    exact ctrPut_keys c _ _ _ (ctrPut_keys c _ _ _ (ctrPut_keys c _ _ _
      (ctrPut_keys c _ _ _ (fun e he => absurd he (List.not_mem_nil e)))))

theorem ctrMapConductor_keys (c : JVal) :
    ∀ e ∈ ctrMapConductor (CTRFieldMapper_init c), ctrKeyOK c e.1 = true := by
  unfold ctrMapConductor
  exact ctrPut_keys c _ _ _ (ctrPut_keys c _ _ _
    (fun e he => absurd he (List.not_mem_nil e)))

theorem ctrMapTransactions_keys (c : JVal) (f : List (JVal × String))
    (h : ctrMapTransactions (CTRFieldMapper_init c) = some f) :
    ∀ e ∈ f, ctrKeyOK c e.1 = true := by
  unfold ctrMapTransactions at h
  cases hc1 : calculate_total_cash_amount (CTRFieldMapper_init c).caseData with
  | none =>
    rw [hc1] at h
    exact absurd h (by simp)
  | some total =>
    rw [hc1] at h
    simp only [Option.some_bind] at h
    have hbase : ∀ e ∈ (if pyTruthy (JVal.num total) = true then
        ctrPut (CTRFieldMapper_init c).field_map [] "total_cash_amount"
          (JVal.str (fmtMoney total)) else []), ctrKeyOK c e.1 = true := by
      by_cases ht : pyTruthy (JVal.num total) = true
      · rw [if_pos ht]
        exact ctrPut_keys c _ _ _ (fun e he => absurd he (List.not_mem_nil e))
      · rw [if_neg ht]
        exact fun e he => absurd he (List.not_mem_nil e)
    have hstep : ∀ (f2 : List (JVal × String)), (∀ e ∈ f2, ctrKeyOK c e.1 = true) →
        (((CTRFieldMapper_init c).txns.take 6).mapM ctrTxLine).map (fun lines =>
          if lines.isEmpty then f2
          else ctrPut (CTRFieldMapper_init c).field_map f2 "transaction_summary"
            (.str (pyTake 500 (String.intercalate " | " lines)))) = some f →
        ∀ e ∈ f, ctrKeyOK c e.1 = true := by
      intro f2 hf2 hmm
      cases hl : ((CTRFieldMapper_init c).txns.take 6).mapM ctrTxLine with
      | none =>
        rw [hl] at hmm
        exact absurd hmm (by simp)
      | some lines =>
        rw [hl] at hmm
        simp only [Option.map_some'] at hmm
        rw [← Option.some.inj hmm]
        by_cases he : lines.isEmpty = true
        · rw [if_pos he]
          exact hf2
        · rw [if_neg he]
          exact ctrPut_keys c _ _ _ hf2
    by_cases hacc : (collectAccounts (CTRFieldMapper_init c).txns).isEmpty = true
    · rw [if_pos hacc] at h
      simp only [Option.some_bind] at h
      exact hstep _ hbase h
    · rw [if_neg hacc] at h
      cases hj : pyJoinList ", " ((collectAccounts (CTRFieldMapper_init c).txns).take 4) with
      | none =>
        rw [hj] at h
        exact absurd h (by simp)
      | some joined =>
        rw [hj] at h
        simp only [Option.map_some', Option.some_bind] at h
        exact hstep _ (ctrPut_keys c _ _ _ hbase) h

theorem ctrMapContactPre_keys (c : JVal) (f : List (JVal × String))
    (h : ctrMapContactPre (CTRFieldMapper_init c) = some f) :
    ∀ e ∈ f, ctrKeyOK c e.1 = true := by
  unfold ctrMapContactPre at h
  cases hp : asStr (pyOr (objGetD (CTRFieldMapper_init c).inst "contact_phone" (.str ""))
      (.str "")) with
  | none =>
    rw [hp] at h
    exact absurd h (by simp)
  | some phoneS =>
    rw [hp] at h
    simp only [Option.map_some'] at h
    rw [← Option.some.inj h]
    have hbase : ∀ e ∈ (if pyTruthy (objGetD (CTRFieldMapper_init c).inst
        "contact_officer" (JVal.str "")) = true then
          ctrPut (CTRFieldMapper_init c).field_map [] "contact_name"
            (objGetD (CTRFieldMapper_init c).inst "contact_officer" (JVal.str ""))
        else []), ctrKeyOK c e.1 = true := by
      by_cases ht : pyTruthy (objGetD (CTRFieldMapper_init c).inst "contact_officer"
          (JVal.str "")) = true
      · rw [if_pos ht]
        exact ctrPut_keys c _ _ _ (fun e he => absurd he (List.not_mem_nil e))
      · rw [if_neg ht]
        exact fun e he => absurd he (List.not_mem_nil e)
    by_cases hlen : 10 ≤ (normalizePhoneDigits phoneS).data.length
    · rw [if_pos hlen]
      exact ctrPut_keys c _ _ _ hbase
    · rw [if_neg hlen]
      exact hbase

theorem ctrMapContact_keys (c : JVal) (now : PyDate) (f : List (JVal × String))
    (h : ctrMapContact (CTRFieldMapper_init c) now = some f) :
    ∀ e ∈ f, ctrKeyOK c e.1 = true := by
  unfold ctrMapContact at h
  cases hp : ctrMapContactPre (CTRFieldMapper_init c) with
  | none =>
    rw [hp] at h
    exact absurd h (by simp)
  | some f0 =>
    rw [hp] at h
    simp only [Option.map_some'] at h
    rw [← Option.some.inj h]
    exact ctrPut_keys c _ _ _ (ctrMapContactPre_keys c f0 hp)

/-- Every entry of a successful CTR field map has a non-empty value and
an acceptable key. -/
theorem ctr_map_entry_ok (c : JVal) (now : PyDate) (r : List (JVal × String))
    (h : CTRFieldMapper_map_all_fields c now = some r) :
    ∀ e ∈ r, ((e.2 == "") = false ∧ ctrKeyOK c e.1 = true) := by
  unfold CTRFieldMapper_map_all_fields at h
  cases h1 : ctrMapInstitution (CTRFieldMapper_init c) with
  | none =>
    rw [h1] at h
    exact absurd h (by simp)
  | some f1 =>
    rw [h1] at h
    simp only [Option.some_bind] at h
    cases h3 : ctrMapTransactions (CTRFieldMapper_init c) with
    | none =>
      rw [h3] at h
      exact absurd h (by simp)
    | some f3 =>
      rw [h3] at h
      simp only [Option.some_bind] at h
      cases h4 : ctrMapContact (CTRFieldMapper_init c) now with
      | none =>
        rw [h4] at h
        exact absurd h (by simp)
      | some f4 =>
        rw [h4] at h
        simp only [Option.some_bind] at h
        rw [← Option.some.inj h]
        intro e he
        unfold finalizeCTR at he
        have hm := (List.mem_filter.mp he).1
        have hcnd := (List.mem_filter.mp he).2
        constructor
        · cases hv : e.2 == ""
          · rfl
          · rw [hv] at hcnd
            simp at hcnd
        · have hkeys : ∀ e2 ∈ dUpdate (dUpdate (dUpdate (dUpdate [] f1)
              (ctrMapConductor (CTRFieldMapper_init c))) f3) f4,
              ctrKeyOK c e2.1 = true := by
            apply dUpdate_keys f4 _ _ (ctrMapContact_keys c now f4 h4)
            apply dUpdate_keys f3 _ _ (ctrMapTransactions_keys c f3 h3)
            apply dUpdate_keys _ _ _ (ctrMapConductor_keys c)
            apply dUpdate_keys f1 _ _ (ctrMapInstitution_keys c f1 h1)
            exact fun e2 he2 => absurd he2 (List.not_mem_nil e2)
          exact hkeys e hm

/-- Claim C8 (amended): both field maps drop empty/`None` values — every
surviving value is a non-empty string (strings by construction of the
final comprehensions).  SAR keys are always strings; CTR keys coming
from the default field map are strings, but ids supplied through a case
`ctr_field_map` override are used as-is by `_put` and may be
non-strings. -/
theorem claim_C8_amended (c : JVal) (now : PyDate) :
    ((SARFieldMapper_map_all_fields c now).getD []).all
      (fun e => !(e.2 == "")) = true ∧
    ((CTRFieldMapper_map_all_fields c now).getD []).all
      (fun e => !(e.2 == "") && ctrKeyOK c e.1) = true := by
  constructor
  · rcases sar_map_shape c now with h | ⟨m, h⟩
    · rw [h]
      rfl
    · rw [h]
      rw [List.all_eq_true]
      intro e he
      have hv := finalizeSAR_vals m e he
      simp [hv]
  · cases h : CTRFieldMapper_map_all_fields c now with
    | none => rfl
    | some r =>
      rw [List.all_eq_true]
      intro e he
      have h2 := ctr_map_entry_ok c now r h e he
      simp [h2.1, h2.2]
